import Mathlib

/-!
DL/T 645 frame codec (ranxx/dlt645): embedding and verification.

Bytes are natural numbers; byte arithmetic is written with an explicit `% 256`.
A Go `string` and a Go `[]byte` are both lists of bytes.  A Go call that returns
`(value, error)` is a `Res`: a value, an error carrying its message, or a
run-time panic (an index out of range, a negative `strings.Repeat` count).
-/

namespace DLT645

/-! ## Definitions -/

/-- Outcome of a Go call: a value, a returned `error` with its message, or a run-time panic. -/
inductive Res (α : Type) where
  | ok (v : α)
  | error (msg : String)
  | panic
  deriving DecidableEq, Repr

/-- Sequencing of Go statements: an error or a panic of the first ends the function. -/
def Res.bind {α β : Type} (r : Res α) (f : α → Res β) : Res β :=
  match r with
  | .ok v => f v
  | .error msg => .error msg
  | .panic => .panic

instance : Monad Res where
  pure := Res.ok
  bind := Res.bind

/-- Go `l[i]` as a read: panics when `i` is out of range. -/
def index (l : List Nat) (i : Nat) : Res Nat :=
  match l[i]? with
  | some v => .ok v
  | none => .panic

/-- Go `l[i] = v`: panics when `i` is out of range. -/
def store (l : List Nat) (i v : Nat) : Res (List Nat) :=
  if i < l.length then .ok (l.set i v) else .panic

/-- Constant `StartCtrl byte = 0x68` (dlt645.go). -/
def StartCtrl : Nat := 0x68

/-- Constant `EndCtrl byte = 0x16` (dlt645.go). -/
def EndCtrl : Nat := 0x16

/-- Constant `ReadRepyErrCtrl byte = 0xD1` (dlt645.go). -/
def ReadRepyErrCtrl : Nat := 0xD1

/-- Constant `ReadRepyErrCtrl2 byte = 0xD2` (dlt645.go). -/
def ReadRepyErrCtrl2 : Nat := 0xD2

/-- The bytes of an ASCII string literal (a Go string is its bytes). -/
def goString (s : String) : List Nat := s.toList.map Char.toNat

/-- A byte that is one of the characters `'0'..'9'`. -/
def isDigit (c : Nat) : Prop := 48 ≤ c ∧ c ≤ 57

instance (c : Nat) : Decidable (isDigit c) := by
  unfold isDigit
  infer_instance

/-- Library call `strconv.Atoi(string(c))` for a byte `c`.  Go's `string(c)` is the one-rune string
holding the code point `c`; `Atoi` parses a one-rune string exactly when the rune is a
decimal digit (a lone sign or any other rune is a syntax error) and returns its value. -/
def AtoiByte (c : Nat) : Option Nat :=
  if isDigit c then some (c - 48) else none

/-- Library call `strconv.Itoa(n)` for a non-negative `n`: its decimal digits, as bytes. -/
def Itoa (n : Nat) : List Nat := (Nat.toDigits 10 n).map Char.toNat

/-- The loop of `AddressToBCD`: `for i := 0; i < 6; i++`, with `n` iterations left. -/
def bcdLoop (address : List Nat) : Nat → Nat → List Nat → Res (List Nat)
  | 0, _, bcd => .ok bcd
  | n + 1, i, bcd => do
    let c1 ← index address (2 * i)
    match AtoiByte c1 with
    | none => .error ("invalid digit at position " ++ toString (2 * i))
    | some high => do
      let c2 ← index address (2 * i + 1)
      match AtoiByte c2 with
      | none => .error ("invalid digit at position " ++ toString (2 * i + 1))
      | some low => do
        let bcd2 ← store bcd (5 - i) ((high <<< 4 ||| low) % 256)
        bcdLoop address n (i + 1) bcd2

/-- Function `AddressToBCD` (data.go).  For an address shorter than 12 bytes the source calls
`strings.Repeat("0", len(address)-12)` with a negative count, which panics. -/
def AddressToBCD (address : List Nat) : Res (List Nat) :=
  if address.length > 12 then .error "address must be exactly 12 digits long"
  else if address.length < 12 then .panic
  else bcdLoop address 6 0 (List.replicate 6 0)

/-- The loop of `BCDToAddress`: `for i := 5; i >= 0; i--`; the counter is `i + 1`. -/
def addrLoop (bcd : List Nat) : Nat → List Nat → Res (List Nat)
  | 0, address => .ok address
  | i + 1, address => do
    let b ← index bcd i
    addrLoop bcd i (address ++ Itoa (b >>> 4) ++ Itoa (b &&& 0x0F))

/-- Function `BCDToAddress` (data.go). -/
def BCDToAddress (bcd : List Nat) : Res (List Nat) :=
  if bcd.length ≠ 6 then .error "BCD byte array must be exactly 6 bytes long"
  else addrLoop bcd 6 []

/-- The loop of `CalculateCS`: `count += int(data[i])` over the whole slice. -/
def sumBytes : List Nat → Nat → Nat
  | [], count => count
  | b :: rest, count => sumBytes rest (count + b)

/-- Function `CalculateCS` (data.go): `byte(count & 0xFF)`. -/
def CalculateCS (data : List Nat) : Nat := (sumBytes data 0) &&& 0xFF

/-- Type `Frame` (data.go). -/
structure Frame where
  Start : Nat
  Address : List Nat
  Start2 : Nat
  Ctrl : Nat
  DataLen : Nat
  DDDD : List Nat
  Data : List Nat
  CS : Nat
  End : Nat
  deriving DecidableEq, Repr

/-- The two loops of `NewDLT645Frame`: `for i := len(src) - 1; i >= 0; i--` with body
`dst[len(src)-i-1] = src[i] + 0x33`; the counter is `i + 1`. -/
def biasLoop (src : List Nat) : Nat → List Nat → Res (List Nat)
  | 0, dst => .ok dst
  | i + 1, dst => do
    let b ← index src i
    let dst2 ← store dst (src.length - i - 1) ((b + 0x33) % 256)
    biasLoop src i dst2

/-- Function `NewDLT645Frame` (data.go); `byte(len(dddd) + len(redata))` is `% 256`. -/
def NewDLT645Frame (address : List Nat) (ctrl : Nat) (DDDD data : List Nat) : Res Frame := do
  let addressBcd ← AddressToBCD address
  let dddd ← biasLoop DDDD DDDD.length (List.replicate DDDD.length 0)
  let redata ← biasLoop data data.length (List.replicate data.length 0)
  .ok { Start := StartCtrl, Address := addressBcd, Start2 := StartCtrl, Ctrl := ctrl,
        DataLen := (dddd.length + redata.length) % 256, DDDD := dddd, Data := redata,
        CS := 0, End := EndCtrl }

/-- Method `Frame.ToData` (data.go). -/
def Frame.ToData (f : Frame) : List Nat :=
  let data := [f.Start] ++ f.Address ++ [f.Start2] ++ [f.Ctrl] ++ [f.DataLen] ++ f.DDDD
    ++ f.Data ++ [0] ++ [f.End]
  data.set (data.length - 2) (CalculateCS (data.take (data.length - 2)))

/-- First decoding loop of `ParseDLT645Frame`:
`for i := len(DDDD); i <= len(DDDD) && i > 0; i--` with body
`DDDD[len(DDDD)-i] = data[10+i-1] - 0x33`. -/
def ddddLoop (data : List Nat) : Nat → List Nat → Res (List Nat)
  | 0, dddd => .ok dddd
  | i + 1, dddd =>
    if i + 1 ≤ dddd.length then do
      let b ← index data (10 + (i + 1) - 1)
      let dddd2 ← store dddd (dddd.length - (i + 1)) ((b + 256 - 0x33) % 256)
      ddddLoop data i dddd2
    else .ok dddd

/-- Second decoding loop of `ParseDLT645Frame`:
`for i := int(DataLen) - len(DDDD); i <= len(Data) && i > 0; i--` with body
`Data[len(Data)-i] = data[10+len(DDDD)+i-1] - 0x33`; `nd` is `len(DDDD)`. -/
def dataLoop (data : List Nat) (nd : Nat) : Nat → List Nat → Res (List Nat)
  | 0, out => .ok out
  | i + 1, out =>
    if i + 1 ≤ out.length then do
      let b ← index data (10 + nd + (i + 1) - 1)
      let out2 ← store out (out.length - (i + 1)) ((b + 256 - 0x33) % 256)
      dataLoop data nd i out2
    else .ok out

/-- Message of `fmt.Errorf("read resp err: 0x%x", ctrl)`, `%x` being lower-case hex. -/
def readRespErr (ctrl : Nat) : String :=
  "read resp err: 0x" ++ String.mk (Nat.toDigits 16 ctrl)

/-- Function `ParseDLT645Frame` (data.go).  `10+frame.DataLen` is byte arithmetic, hence
`% 256`; the counter of the second loop starts at `int(DataLen) - len(DDDD)`, which is never
negative because `len(DDDD)` is 4 only when `DataLen >= 4`;
`frame.DataLen-4` is evaluated only when `DataLen >= 4`. -/
def ParseDLT645Frame (data : List Nat) : Res Frame :=
  if data.length < 12 then .error "data too short"
  else do
    let d0 ← index data 0
    let d7 ← index data 7
    let dEnd ← index data (data.length - 1)
    if d0 ≠ StartCtrl ∨ d7 ≠ StartCtrl ∨ dEnd ≠ EndCtrl then .error "invalid frame"
    else do
      let ctrl ← index data 8
      let dataLen ← index data 9
      let address := (data.drop 1).take 6
      let cs ← index data ((10 + dataLen) % 256)
      if CalculateCS (data.take (data.length - 2)) ≠ cs then .error "checksum error"
      else if ctrl = ReadRepyErrCtrl ∨ ctrl = ReadRepyErrCtrl2 then .error (readRespErr ctrl)
      else do
        let dddd0 := if dataLen ≥ 4 then List.replicate 4 0 else []
        let data0 := if dataLen ≥ 4 then List.replicate ((dataLen - 4) % 256) 0 else []
        let dddd ← ddddLoop data dddd0.length dddd0
        let out ← dataLoop data dddd.length (dataLen - dddd.length) data0
        .ok { Start := d0, Address := address, Start2 := d7, Ctrl := ctrl, DataLen := dataLen,
              DDDD := dddd, Data := out, CS := cs, End := dEnd }

/-- The bytes `Frame.ToData` lays out before the checksum. -/
def Frame.header (f : Frame) : List Nat :=
  [f.Start] ++ f.Address ++ [f.Start2, f.Ctrl, f.DataLen] ++ f.DDDD ++ f.Data

/-- Flipping bit `k` of a byte. -/
def flipBit (b k : Nat) : Nat := b ^^^ (2 ^ k)

/-! ### Transport back ends and client (tcp.go, serial.go, dlt645.go)

The mutex of a back end is not modelled: every function below is one critical section.
Instants are integer nanoseconds on one clock, durations are integer nanoseconds.  The
calls a back end makes on the operating system take their outcomes from a wire record:
a value is a handle or the bytes read, an error is its message. -/

/-- Largest `time.Duration` (an int64 of nanoseconds). -/
def maxDuration : Int := 9223372036854775807

/-- Smallest `time.Duration`. -/
def minDuration : Int := -9223372036854775808

/-- Library call `t.Sub(u)` of `time.Time`: the difference, saturated to the range of
`time.Duration`. -/
def timeSub (t u : Int) : Int :=
  if t - u > maxDuration then maxDuration
  else if t - u < minDuration then minDuration
  else t - u

/-- Type `RS485Config` (config.go). -/
structure RS485Config where
  Enabled : Bool
  DelayRtsBeforeSend : Int
  DelayRtsAfterSend : Int
  RtsHighDuringSend : Bool
  RtsHighAfterSend : Bool
  RxDuringTx : Bool
  deriving DecidableEq, Repr

/-- Type `Config` (config.go); a `*log.Logger` is the identity of the logger, if any. -/
structure Config where
  Timeout : Int
  IdleTimeout : Int
  Logger : Option Nat
  BaudRate : Int
  DataBits : Int
  StopBits : Int
  Parity : List Nat
  RS485 : Option RS485Config
  deriving DecidableEq, Repr

/-- The `serial.Config` that `serialClient.connect` hands to `serial.Open`. -/
structure SerialConfig where
  Address : List Nat
  BaudRate : Int
  DataBits : Int
  StopBits : Int
  Parity : List Nat
  Timeout : Int
  RS485 : RS485Config
  deriving DecidableEq, Repr

/-- Outcomes of the operating-system calls of the TCP back end: `Dial` (by timeout and
address), `SetDeadline` (no deadline is `none`), `Write`, `Read` and `Close`. -/
structure TCPWire where
  dial : Int → List Nat → Except String Nat
  setDeadline : Option Int → Option String
  write : List Nat → Option String
  read : Except String (List Nat)
  close : Option String

/-- Outcomes of the operating-system calls of the serial back end: `serial.Open`, `Write`,
`Read` and `Close`. -/
structure SerialWire where
  openPort : SerialConfig → Except String Nat
  write : List Nat → Option String
  read : Except String (List Nat)
  close : Option String

/-- Type `tcpClient` (tcp.go); `closeTimer` holds the duration the idle timer is armed
with, `conn` the handle of the open connection. -/
structure tcpClient where
  Address : List Nat
  Timeout : Int
  IdleTimeout : Int
  Logger : Option Nat
  conn : Option Nat
  closeTimer : Option Int
  lastActivity : Int
  deriving DecidableEq, Repr

/-- Method `tcpClient.connect` (tcp.go). -/
def tcpClient.connect (t : tcpClient) (w : TCPWire) : Option String × tcpClient :=
  match t.conn with
  | none =>
    match w.dial t.Timeout t.Address with
    | .error err => (some err, t)
    | .ok conn => (none, { t with conn := some conn })
  | some _ => (none, t)

/-- Method `tcpClient.close` (tcp.go). -/
def tcpClient.close (t : tcpClient) (w : TCPWire) : Option String × tcpClient :=
  let r1 : Option String × tcpClient :=
    match t.conn with
    | some _ => (w.close, { t with conn := none })
    | none => (none, t)
  let t2 : tcpClient :=
    match r1.2.closeTimer with
    | some _ => { r1.2 with closeTimer := none }
    | none => r1.2
  (r1.1, t2)

/-- Method `tcpClient.Close` (tcp.go): `close` under the lock. -/
def tcpClient.Close (t : tcpClient) (w : TCPWire) : Option String × tcpClient :=
  t.close w

/-- Method `tcpClient.startCloseTimer` (tcp.go): `time.AfterFunc` arms a new timer,
`Reset` re-arms the existing one. -/
def tcpClient.startCloseTimer (t : tcpClient) : tcpClient :=
  if t.IdleTimeout ≤ 0 then t
  else
    match t.closeTimer with
    | none => { t with closeTimer := some t.IdleTimeout }
    | some _ => { t with closeTimer := some t.IdleTimeout }

/-- Method `tcpClient.closeIdle` (tcp.go), run at the instant `now`. -/
def tcpClient.closeIdle (t : tcpClient) (w : TCPWire) (now : Int) : tcpClient :=
  if t.IdleTimeout ≤ 0 then t
  else
    let idle := timeSub now t.lastActivity
    if idle ≥ t.IdleTimeout then (t.close w).2 else t

/-- Method `tcpClient.Send` (tcp.go), run at the instant `now`. -/
def tcpClient.Send (t : tcpClient) (w : TCPWire) (now : Int) (data : List Nat) :
    Res (List Nat) × tcpClient :=
  match t.connect w with
  | (some err, t1) => (.error err, t1)
  | (none, t1) =>
    let t2 : tcpClient := { t1 with lastActivity := now }
    let t3 := t2.startCloseTimer
    let timeout : Option Int := if t3.Timeout > 0 then some (t3.lastActivity + t3.Timeout) else none
    match w.setDeadline timeout with
    | some err => (.error err, t3)
    | none =>
      match w.write data with
      | some err => (.error err, t3)
      | none =>
        match w.read with
        | .error err => (.error err, t3)
        | .ok resp => (.ok resp, t3)

/-- Type `serialClient` (serial.go). -/
structure serialClient where
  Address : List Nat
  Timeout : Int
  IdleTimeout : Int
  Logger : Option Nat
  BaudRate : Int
  DataBits : Int
  StopBits : Int
  Parity : List Nat
  RS485 : Option RS485Config
  conn : Option Nat
  closeTimer : Option Int
  lastActivity : Int
  deriving DecidableEq, Repr

/-- Method `serialClient.connect` (serial.go).  The argument of `serial.Open` holds
`*s.RS485`, so a nil `RS485` panics before the port is opened. -/
def serialClient.connect (s : serialClient) (w : SerialWire) : Res Unit × serialClient :=
  match s.conn with
  | none =>
    match s.RS485 with
    | none => (.panic, s)
    | some rs485 =>
      match w.openPort { Address := s.Address, BaudRate := s.BaudRate, DataBits := s.DataBits,
                         StopBits := s.StopBits, Parity := s.Parity, Timeout := s.Timeout,
                         RS485 := rs485 } with
      | .error err => (.error err, s)
      | .ok port => (.ok (), { s with conn := some port })
  | some _ => (.ok (), s)

/-- Method `serialClient.close` (serial.go). -/
def serialClient.close (s : serialClient) (w : SerialWire) : Option String × serialClient :=
  let r1 : Option String × serialClient :=
    match s.conn with
    | some _ => (w.close, { s with conn := none })
    | none => (none, s)
  let s2 : serialClient :=
    match r1.2.closeTimer with
    | some _ => { r1.2 with closeTimer := none }
    | none => r1.2
  (r1.1, s2)

/-- Method `serialClient.Close` (serial.go): `close` under the lock. -/
def serialClient.Close (s : serialClient) (w : SerialWire) : Option String × serialClient :=
  s.close w

/-- Method `serialClient.startCloseTimer` (serial.go). -/
def serialClient.startCloseTimer (s : serialClient) : serialClient :=
  if s.IdleTimeout ≤ 0 then s
  else
    match s.closeTimer with
    | none => { s with closeTimer := some s.IdleTimeout }
    | some _ => { s with closeTimer := some s.IdleTimeout }

/-- Method `serialClient.closeIdle` (serial.go), run at the instant `now`. -/
def serialClient.closeIdle (s : serialClient) (w : SerialWire) (now : Int) : serialClient :=
  if s.IdleTimeout ≤ 0 then s
  else
    let idle := timeSub now s.lastActivity
    if idle ≥ s.IdleTimeout then (s.close w).2 else s

/-- Method `serialClient.Send` (serial.go), run at the instant `now`. -/
def serialClient.Send (s : serialClient) (w : SerialWire) (now : Int) (data : List Nat) :
    Res (List Nat) × serialClient :=
  match s.connect w with
  | (.error err, s1) => (.error err, s1)
  | (.panic, s1) => (.panic, s1)
  | (.ok _, s1) =>
    let s2 : serialClient := { s1 with lastActivity := now }
    let s3 := s2.startCloseTimer
    match w.write data with
    | some err => (.error err, s3)
    | none =>
      match w.read with
      | .error err => (.error err, s3)
      | .ok resp => (.ok resp, s3)

/-- Type `Client` (dlt645.go); the two pointers are the back ends, nil being `none`. -/
structure Client where
  serialC : Option serialClient
  tcpC : Option tcpClient
  DeviceAddress : List Nat
  config : Option Config
  deriving DecidableEq, Repr

/-- Method `Client.Read` (dlt645.go), run at the instant `now`: the result and the client
afterwards. -/
def Client.Read (c : Client) (sw : SerialWire) (tw : TCPWire) (now : Int) (ctrl : Nat)
    (DDDD data : List Nat) : Res Frame × Client :=
  match NewDLT645Frame c.DeviceAddress ctrl DDDD data with
  | .error err => (.error err, c)
  | .panic => (.panic, c)
  | .ok frame =>
    let sendData := frame.ToData
    match c.serialC with
    | some s =>
      let r := s.Send sw now sendData
      (r.1.bind ParseDLT645Frame, { c with serialC := some r.2 })
    | none =>
      match c.tcpC with
      | some t =>
        let r := t.Send tw now sendData
        (r.1.bind ParseDLT645Frame, { c with tcpC := some r.2 })
      | none => (.error "不支持的type", c)

/-- Method `Client.Close` (dlt645.go). -/
def Client.Close (c : Client) (sw : SerialWire) (tw : TCPWire) : Client :=
  let c1 : Client :=
    match c.serialC with
    | some s => { c with serialC := some (s.Close sw).2 }
    | none => c
  match c1.tcpC with
  | some t => { c1 with tcpC := some (t.Close tw).2 }
  | none => c1

/-! ### Configuration and constructors (config.go, dlt645.go) -/

/-- Constant `time.Second`, in nanoseconds. -/
def Second : Int := 1000000000

/-- Function `defaultConfig` (config.go). -/
def defaultConfig : Config :=
  { Timeout := Second * 5, IdleTimeout := Second * 60 * 5, Logger := none, BaudRate := 19200,
    DataBits := 8, StopBits := 1, Parity := goString "E", RS485 := none }

/-- Body of the loop of `mergeConfig` for one element `v` of `cfs`. -/
def mergeOne (cf v : Config) : Config :=
  let cf1 := if v.Timeout > 0 then { cf with Timeout := v.Timeout } else cf
  let cf2 := if v.IdleTimeout > 0 then { cf1 with IdleTimeout := v.IdleTimeout } else cf1
  let cf3 := if v.BaudRate > 0 then { cf2 with BaudRate := v.BaudRate } else cf2
  let cf4 := if v.DataBits > 0 then { cf3 with DataBits := v.DataBits } else cf3
  let cf5 := if v.StopBits > 0 then { cf4 with StopBits := v.StopBits } else cf4
  let cf6 := if v.Parity.length > 0 then { cf5 with Parity := v.Parity } else cf5
  let cf7 := if v.RS485 ≠ none then { cf6 with RS485 := v.RS485 } else cf6
  if v.Logger ≠ none then { cf7 with Logger := v.Logger } else cf7

/-- Function `mergeConfig` (config.go); an element of `cfs` is a pointer, and reading a
field of a nil one panics. -/
def mergeConfig (cf : Config) : List (Option Config) → Res Config
  | [] => .ok cf
  | none :: _ => .panic
  | some v :: rest => mergeConfig (mergeOne cf v) rest

/-- Function `newSerialClient` (serial.go): every field but `Address` is zero. -/
def newSerialClient (address : List Nat) : serialClient :=
  { Address := address, Timeout := 0, IdleTimeout := 0, Logger := none, BaudRate := 0,
    DataBits := 0, StopBits := 0, Parity := [], RS485 := none, conn := none,
    closeTimer := none, lastActivity := 0 }

/-- Function `newTCPClient` (tcp.go). -/
def newTCPClient (address : List Nat) : tcpClient :=
  { Address := address, Timeout := 0, IdleTimeout := 0, Logger := none, conn := none,
    closeTimer := none, lastActivity := 0 }

/-- Method `serialClient.Connect` (serial.go): `connect` under the lock. -/
def serialClient.Connect (s : serialClient) (w : SerialWire) : Res Unit × serialClient :=
  s.connect w

/-- Method `tcpClient.Connect` (tcp.go): `connect` under the lock. -/
def tcpClient.Connect (t : tcpClient) (w : TCPWire) : Option String × tcpClient :=
  t.connect w

/-- The serial back end `newSerial` (dlt645.go) has built when it calls `h.Connect()`:
the assignments of the function up to that call.  The second test reads `h.IdleTimeout`,
as the source does. -/
def newSerialConfigured (address : List Nat) (cf : Config) : serialClient :=
  let h := newSerialClient address
  let h1 := if cf.Timeout > 0 then { h with Timeout := cf.Timeout } else h
  let h2 := if h1.IdleTimeout > 0 then { h1 with IdleTimeout := cf.IdleTimeout } else h1
  let h3 := if cf.BaudRate > 0 then { h2 with BaudRate := cf.BaudRate } else h2
  let h4 := if cf.DataBits > 0 then { h3 with DataBits := cf.DataBits } else h3
  let h5 := if cf.Parity.length > 0 then { h4 with Parity := cf.Parity } else h4
  let h6 := if cf.StopBits > 0 then { h5 with StopBits := cf.StopBits } else h5
  if cf.Logger ≠ none then { h6 with Logger := cf.Logger } else h6

/-- Function `newSerial` (dlt645.go). -/
def newSerial (address deviceAddress : List Nat) (cf : Config) (w : SerialWire) : Res Client :=
  let h := newSerialConfigured address cf
  match h.Connect w with
  | (.error err, _) => .error err
  | (.panic, _) => .panic
  | (.ok _, h1) =>
    .ok { serialC := some h1, tcpC := none, DeviceAddress := deviceAddress, config := some cf }

/-- The TCP back end `newTCP` (dlt645.go) has built when it calls `h.Connect()`. -/
def newTCPConfigured (address : List Nat) (cf : Config) : tcpClient :=
  let h := newTCPClient address
  let h1 := if cf.Timeout > 0 then { h with Timeout := cf.Timeout } else h
  let h2 := if cf.IdleTimeout > 0 then { h1 with IdleTimeout := cf.IdleTimeout } else h1
  if cf.Logger ≠ none then { h2 with Logger := cf.Logger } else h2

/-- Function `newTCP` (dlt645.go). -/
def newTCP (address deviceAddress : List Nat) (cf : Config) (w : TCPWire) : Res Client :=
  let h := newTCPConfigured address cf
  match h.Connect w with
  | (some err, _) => .error err
  | (none, h1) =>
    .ok { serialC := none, tcpC := some h1, DeviceAddress := deviceAddress, config := some cf }

/-- Constant `Serial Type = iota` (dlt645.go). -/
def Serial : Int := 0

/-- Constant `TCP` (dlt645.go), the second value of `Type`. -/
def TCP : Int := 1

/-- Function `NewClient` (dlt645.go); `t` is the `Type`, an int. -/
def NewClient (address : List Nat) (t : Int) (deviceAddress : List Nat)
    (cfs : List (Option Config)) (sw : SerialWire) (tw : TCPWire) : Res Client :=
  match mergeConfig defaultConfig cfs with
  | .error err => .error err
  | .panic => .panic
  | .ok cf =>
    if t = Serial then newSerial address deviceAddress cf sw
    else if t = TCP then newTCP address deviceAddress cf tw
    else .error "不支持的type"

/-- A caller configuration that sets the idle timeout, the baud rate and the RS-485
line-control options. -/
def callerConfig : Config :=
  { Timeout := 0, IdleTimeout := Second * 10, Logger := none, BaudRate := 9600, DataBits := 0,
    StopBits := 0, Parity := [],
    RS485 := some { Enabled := true, DelayRtsBeforeSend := 0, DelayRtsAfterSend := 0,
                    RtsHighDuringSend := true, RtsHighAfterSend := false,
                    RxDuringTx := false } }

/-! ## Theorems -/

@[simp] theorem bind_ok {α β : Type} (v : α) (f : α → Res β) : (Res.ok v >>= f) = f v := rfl

@[simp] theorem bind_error {α β : Type} (m : String) (f : α → Res β) :
    ((Res.error m : Res α) >>= f) = Res.error m := rfl

@[simp] theorem bind_panic {α β : Type} (f : α → Res β) :
    ((Res.panic : Res α) >>= f) = Res.panic := rfl

theorem index_of_lt (l : List Nat) (i : Nat) (h : i < l.length) : index l i = .ok l[i] := by
  simp [index, List.getElem?_eq_getElem h]

theorem index_of_ge (l : List Nat) (i : Nat) (h : l.length ≤ i) : index l i = .panic := by
  simp [index, List.getElem?_eq_none h]

theorem store_of_lt (l : List Nat) (i v : Nat) (h : i < l.length) :
    store l i v = .ok (l.set i v) := by
  simp [store, h]

theorem length_twelve (a : List Nat) (h : a.length = 12) :
    ∃ c0 c1 c2 c3 c4 c5 c6 c7 c8 c9 c10 c11,
      a = [c0, c1, c2, c3, c4, c5, c6, c7, c8, c9, c10, c11] := by
  rcases a with _ | ⟨c0, _ | ⟨c1, _ | ⟨c2, _ | ⟨c3, _ | ⟨c4, _ | ⟨c5, _ | ⟨c6, _ | ⟨c7,
    _ | ⟨c8, _ | ⟨c9, _ | ⟨c10, _ | ⟨c11, _ | ⟨c12, t⟩⟩⟩⟩⟩⟩⟩⟩⟩⟩⟩⟩⟩ <;>
    simp at h
  exact ⟨c0, c1, c2, c3, c4, c5, c6, c7, c8, c9, c10, c11, rfl⟩

theorem AtoiByte_digit (c : Nat) (h : isDigit c) : AtoiByte c = some (c - 48) := by
  simp [AtoiByte, h]

theorem AtoiByte_not_digit (c : Nat) (h : ¬ isDigit c) : AtoiByte c = none := by
  simp [AtoiByte, h]

/-- The byte `AddressToBCD` packs from the digit characters `c` (high) and `d` (low). -/
theorem pack_eq (c d : Nat) (hc : isDigit c) (hd : isDigit d) :
    ((c - 48) <<< 4 ||| (d - 48)) % 256 = 16 * (c - 48) + (d - 48) := by
  obtain ⟨h1, h2⟩ := hc
  obtain ⟨h3, h4⟩ := hd
  interval_cases c <;> interval_cases d <;> rfl

theorem unpack_high (c d : Nat) (hc : isDigit c) (hd : isDigit d) :
    Itoa ((((c - 48) <<< 4 ||| (d - 48)) % 256) >>> 4) = [c] := by
  obtain ⟨h1, h2⟩ := hc
  obtain ⟨h3, h4⟩ := hd
  interval_cases c <;> interval_cases d <;> rfl

theorem unpack_low (c d : Nat) (hc : isDigit c) (hd : isDigit d) :
    Itoa ((((c - 48) <<< 4 ||| (d - 48)) % 256) &&& 0x0F) = [d] := by
  obtain ⟨h1, h2⟩ := hc
  obtain ⟨h3, h4⟩ := hd
  interval_cases c <;> interval_cases d <;> rfl

/-- What `AddressToBCD` returns on twelve digit characters. -/
theorem AddressToBCD_twelve (c0 c1 c2 c3 c4 c5 c6 c7 c8 c9 c10 c11 : Nat)
    (h : ∀ c ∈ [c0, c1, c2, c3, c4, c5, c6, c7, c8, c9, c10, c11], isDigit c) :
    AddressToBCD [c0, c1, c2, c3, c4, c5, c6, c7, c8, c9, c10, c11] =
      .ok [((c10 - 48) <<< 4 ||| (c11 - 48)) % 256, ((c8 - 48) <<< 4 ||| (c9 - 48)) % 256,
           ((c6 - 48) <<< 4 ||| (c7 - 48)) % 256, ((c4 - 48) <<< 4 ||| (c5 - 48)) % 256,
           ((c2 - 48) <<< 4 ||| (c3 - 48)) % 256, ((c0 - 48) <<< 4 ||| (c1 - 48)) % 256] := by
  simp only [List.mem_cons, List.mem_singleton, forall_eq_or_imp, forall_eq,
    List.not_mem_nil, IsEmpty.forall_iff, implies_true, and_true] at h
  obtain ⟨h0, h1, h2, h3, h4, h5, h6, h7, h8, h9, h10, h11⟩ := h
  simp [AddressToBCD, bcdLoop, index, store, AtoiByte, h0, h1, h2, h3, h4, h5, h6, h7, h8, h9,
    h10, h11, List.replicate]

/-- What `BCDToAddress` returns on six bytes. -/
theorem BCDToAddress_six (b0 b1 b2 b3 b4 b5 : Nat) :
    BCDToAddress [b0, b1, b2, b3, b4, b5] =
      .ok (Itoa (b5 >>> 4) ++ Itoa (b5 &&& 0x0F) ++ Itoa (b4 >>> 4) ++ Itoa (b4 &&& 0x0F)
        ++ Itoa (b3 >>> 4) ++ Itoa (b3 &&& 0x0F) ++ Itoa (b2 >>> 4) ++ Itoa (b2 &&& 0x0F)
        ++ Itoa (b1 >>> 4) ++ Itoa (b1 &&& 0x0F) ++ Itoa (b0 >>> 4) ++ Itoa (b0 &&& 0x0F)) := by
  simp [BCDToAddress, addrLoop, index]

/-- An address of twelve bytes one of which is not a digit is rejected with an error. -/
theorem AddressToBCD_nondigit (a : List Nat) (hlen : a.length = 12)
    (h : ∃ c ∈ a, ¬ isDigit c) : ∃ msg, AddressToBCD a = .error msg := by
  obtain ⟨c0, c1, c2, c3, c4, c5, c6, c7, c8, c9, c10, c11, rfl⟩ := length_twelve a hlen
  by_cases h0 : isDigit c0
  swap
  · exact ⟨_, by simp [AddressToBCD, bcdLoop, index, store, AtoiByte, h0]; rfl⟩
  by_cases h1 : isDigit c1
  swap
  · exact ⟨_, by simp [AddressToBCD, bcdLoop, index, store, AtoiByte, h0, h1]; rfl⟩
  by_cases h2 : isDigit c2
  swap
  · exact ⟨_, by simp [AddressToBCD, bcdLoop, index, store, AtoiByte, h0, h1, h2]; rfl⟩
  by_cases h3 : isDigit c3
  swap
  · exact ⟨_, by simp [AddressToBCD, bcdLoop, index, store, AtoiByte, h0, h1, h2, h3]; rfl⟩
  by_cases h4 : isDigit c4
  swap
  · exact ⟨_, by simp [AddressToBCD, bcdLoop, index, store, AtoiByte, h0, h1, h2, h3, h4]; rfl⟩
  by_cases h5 : isDigit c5
  swap
  · exact ⟨_, by simp [AddressToBCD, bcdLoop, index, store, AtoiByte, h0, h1, h2, h3, h4, h5]; rfl⟩
  by_cases h6 : isDigit c6
  swap
  · exact ⟨_, by simp [AddressToBCD, bcdLoop, index, store, AtoiByte, h0, h1, h2, h3, h4, h5, h6]; rfl⟩
  by_cases h7 : isDigit c7
  swap
  · exact ⟨_, by simp [AddressToBCD, bcdLoop, index, store, AtoiByte, h0, h1, h2, h3, h4, h5, h6, h7]; rfl⟩
  by_cases h8 : isDigit c8
  swap
  · exact ⟨_, by simp [AddressToBCD, bcdLoop, index, store, AtoiByte, h0, h1, h2, h3, h4, h5, h6, h7, h8]; rfl⟩
  by_cases h9 : isDigit c9
  swap
  · exact ⟨_, by simp [AddressToBCD, bcdLoop, index, store, AtoiByte, h0, h1, h2, h3, h4, h5, h6, h7, h8, h9]; rfl⟩
  by_cases h10 : isDigit c10
  swap
  · exact ⟨_, by simp [AddressToBCD, bcdLoop, index, store, AtoiByte, h0, h1, h2, h3, h4, h5, h6, h7, h8, h9, h10]; rfl⟩
  by_cases h11 : isDigit c11
  swap
  · exact ⟨_, by simp [AddressToBCD, bcdLoop, index, store, AtoiByte, h0, h1, h2, h3, h4, h5, h6, h7, h8, h9, h10, h11]; rfl⟩
  obtain ⟨c, hc, hnd⟩ := h
  simp only [List.mem_cons, List.mem_singleton, List.not_mem_nil, or_false] at hc
  rcases hc with rfl | rfl | rfl | rfl | rfl | rfl | rfl | rfl | rfl | rfl | rfl | rfl <;>
    contradiction

/-- An address of twelve digits is accepted and yields six bytes. -/
theorem AddressToBCD_ok (a : List Nat) (hlen : a.length = 12) (hdig : ∀ c ∈ a, isDigit c) :
    ∃ b, AddressToBCD a = .ok b ∧ b.length = 6 := by
  obtain ⟨c0, c1, c2, c3, c4, c5, c6, c7, c8, c9, c10, c11, rfl⟩ := length_twelve a hlen
  exact ⟨_, AddressToBCD_twelve _ _ _ _ _ _ _ _ _ _ _ _ hdig, rfl⟩

/-- Decoding the bytes `AddressToBCD` returns for twelve digits gives the digits back. -/
theorem BCDToAddress_AddressToBCD (a b : List Nat) (hlen : a.length = 12)
    (hdig : ∀ c ∈ a, isDigit c) (h : AddressToBCD a = .ok b) : BCDToAddress b = .ok a := by
  obtain ⟨c0, c1, c2, c3, c4, c5, c6, c7, c8, c9, c10, c11, rfl⟩ := length_twelve a hlen
  rw [AddressToBCD_twelve _ _ _ _ _ _ _ _ _ _ _ _ hdig] at h
  cases h
  simp only [List.mem_cons, List.mem_singleton, forall_eq_or_imp, forall_eq,
    List.not_mem_nil, IsEmpty.forall_iff, implies_true, and_true] at hdig
  obtain ⟨h0, h1, h2, h3, h4, h5, h6, h7, h8, h9, h10, h11⟩ := hdig
  rw [BCDToAddress_six, unpack_high c0 c1 h0 h1, unpack_low c0 c1 h0 h1,
    unpack_high c2 c3 h2 h3, unpack_low c2 c3 h2 h3, unpack_high c4 c5 h4 h5,
    unpack_low c4 c5 h4 h5, unpack_high c6 c7 h6 h7, unpack_low c6 c7 h6 h7,
    unpack_high c8 c9 h8 h9, unpack_low c8 c9 h8 h9, unpack_high c10 c11 h10 h11,
    unpack_low c10 c11 h10 h11]
  rfl

/-- C2: for every string of exactly 12 decimal digits `a`, `AddressToBCD a` succeeds with
6 bytes and `BCDToAddress` applied to those bytes succeeds and returns `a`. -/
theorem address_roundtrip (a : List Nat) (hlen : a.length = 12) (hdig : ∀ c ∈ a, isDigit c) :
    ∃ b, AddressToBCD a = .ok b ∧ b.length = 6 ∧ BCDToAddress b = .ok a := by
  obtain ⟨b, hb, hb6⟩ := AddressToBCD_ok a hlen hdig
  exact ⟨b, hb, hb6, BCDToAddress_AddressToBCD a b hlen hdig hb⟩

/-- Witness of C2 at the address "202204080026". -/
theorem address_roundtrip_witness :
    ∃ b, AddressToBCD (goString "202204080026") = .ok b ∧ b.length = 6 ∧
      BCDToAddress b = .ok (goString "202204080026") :=
  address_roundtrip (goString "202204080026") (by decide) (by decide)

/-- C8: `AddressToBCD` fails for every input longer than 12 characters; for an input of
exactly 12 characters it fails if and only if one of them is not a decimal digit; and
whenever it succeeds it returns exactly 6 bytes. -/
theorem AddressToBCD_failure :
    (∀ a : List Nat, a.length > 12 →
      AddressToBCD a = .error "address must be exactly 12 digits long") ∧
    (∀ a : List Nat, a.length = 12 →
      ((∃ msg, AddressToBCD a = .error msg) ↔ ∃ c ∈ a, ¬ isDigit c)) ∧
    (∀ (a b : List Nat), AddressToBCD a = .ok b → b.length = 6) := by
  refine ⟨?_, ?_, ?_⟩
  · intro a h
    simp [AddressToBCD, h]
  · intro a hlen
    constructor
    · rintro ⟨msg, hmsg⟩
      by_contra hno
      push_neg at hno
      obtain ⟨b, hb, -⟩ := AddressToBCD_ok a hlen hno
      rw [hb] at hmsg
      cases hmsg
    · exact AddressToBCD_nondigit a hlen
  · intro a b hab
    by_cases h1 : a.length > 12
    · simp [AddressToBCD, h1] at hab
    by_cases h2 : a.length < 12
    · simp [AddressToBCD, h1, h2] at hab
    have hlen : a.length = 12 := by omega
    by_cases hd : ∀ c ∈ a, isDigit c
    · obtain ⟨b2, hb, hb6⟩ := AddressToBCD_ok a hlen hd
      rw [hb] at hab
      cases hab
      exact hb6
    · push_neg at hd
      obtain ⟨msg, hmsg⟩ := AddressToBCD_nondigit a hlen hd
      rw [hmsg] at hab
      cases hab

/-- C9: for a 12-digit address with digits `d0 .. d11`, `AddressToBCD` returns 6 bytes `b`
with `b[5-i] = 16 * d(2i) + d(2i+1)` for every `i` in `0..5`. -/
theorem AddressToBCD_layout (a : List Nat) (hlen : a.length = 12)
    (hdig : ∀ c ∈ a, isDigit c) :
    ∃ b, AddressToBCD a = .ok b ∧ b.length = 6 ∧
      ∀ i, i < 6 →
        b[5 - i]? = some (16 * (a.getD (2 * i) 0 - 48) + (a.getD (2 * i + 1) 0 - 48)) := by
  obtain ⟨c0, c1, c2, c3, c4, c5, c6, c7, c8, c9, c10, c11, rfl⟩ := length_twelve a hlen
  refine ⟨_, AddressToBCD_twelve _ _ _ _ _ _ _ _ _ _ _ _ hdig, rfl, ?_⟩
  simp only [List.mem_cons, List.mem_singleton, forall_eq_or_imp, forall_eq,
    List.not_mem_nil, IsEmpty.forall_iff, implies_true, and_true] at hdig
  obtain ⟨h0, h1, h2, h3, h4, h5, h6, h7, h8, h9, h10, h11⟩ := hdig
  intro i hi
  interval_cases i
  · simpa using pack_eq c0 c1 h0 h1
  · simpa using pack_eq c2 c3 h2 h3
  · simpa using pack_eq c4 c5 h4 h5
  · simpa using pack_eq c6 c7 h6 h7
  · simpa using pack_eq c8 c9 h8 h9
  · simpa using pack_eq c10 c11 h10 h11

/-- Witness of C9 at the address "202204080026". -/
theorem AddressToBCD_layout_witness :
    ∃ b, AddressToBCD (goString "202204080026") = .ok b ∧ b.length = 6 ∧
      ∀ i, i < 6 →
        b[5 - i]? = some (16 * ((goString "202204080026").getD (2 * i) 0 - 48)
          + ((goString "202204080026").getD (2 * i + 1) 0 - 48)) :=
  AddressToBCD_layout (goString "202204080026") (by decide) (by decide)

/-- C10 as stated fails: the fourth digit pair of "202204080026" is "08", so the third
byte is 0x08, not 0x80, and the bytes 26 00 80 04 22 20 decode to "202204800026". -/
theorem example_address_counterexample :
    ¬ (AddressToBCD (goString "202204080026") = .ok [0x26, 0x00, 0x80, 0x04, 0x22, 0x20] ∧
       BCDToAddress [0x26, 0x00, 0x80, 0x04, 0x22, 0x20] = .ok (goString "202204080026")) := by
  decide

/-- C10 (amended): `AddressToBCD "202204080026"` returns the six bytes
0x26 0x00 0x08 0x04 0x22 0x20, and `BCDToAddress` applied to those six bytes returns
"202204080026". -/
theorem example_address :
    AddressToBCD (goString "202204080026") = .ok [0x26, 0x00, 0x08, 0x04, 0x22, 0x20] ∧
    BCDToAddress [0x26, 0x00, 0x08, 0x04, 0x22, 0x20] = .ok (goString "202204080026") := by
  decide

theorem sumBytes_eq (data : List Nat) (count : Nat) :
    sumBytes data count = count + data.sum := by
  induction data generalizing count with
  | nil => simp [sumBytes]
  | cons b rest ih => simp [sumBytes, ih, Nat.add_assoc]

/-- Sum form of `CalculateCS`: the sum of the bytes modulo 256. -/
theorem CalculateCS_eq (data : List Nat) : CalculateCS data = data.sum % 256 := by
  have h := Nat.and_pow_two_sub_one_eq_mod (sumBytes data 0) 8
  simpa [CalculateCS, sumBytes_eq] using h

/-- Overwriting one element of a list changes its sum by the difference. -/
theorem sum_set_add (l : List Nat) (j v : Nat) (h : j < l.length) :
    (l.set j v).sum + l[j] = l.sum + v := by
  induction l generalizing j with
  | nil => simp at h
  | cons x t ih =>
    cases j with
    | zero => simp; omega
    | succ j =>
      have hj : j < t.length := by simpa using h
      have := ih j hj
      simp only [List.set_cons_succ, List.sum_cons, List.getElem_cons_succ]
      omega

theorem Frame.ToData_eq (f : Frame) :
    f.ToData = f.header ++ [f.header.sum % 256, f.End] := by
  have h1 : [f.Start] ++ f.Address ++ [f.Start2] ++ [f.Ctrl] ++ [f.DataLen] ++ f.DDDD
      ++ f.Data ++ [0] ++ [f.End] = f.header ++ [0, f.End] := by
    simp [Frame.header]
  unfold Frame.ToData
  simp only [h1]
  have h2 : (f.header ++ [0, f.End]).length - 2 = f.header.length := by simp
  rw [h2, List.take_left, CalculateCS_eq, List.set_append_right _ _ (Nat.le_refl _)]
  simp

theorem biasLoop_eq (src : List Nat) (k : Nat) (dst : List Nat) (hk : k ≤ src.length)
    (hd : dst.length = src.length) :
    biasLoop src k dst =
      .ok (dst.take (src.length - k) ++ ((src.take k).reverse.map fun b => (b + 0x33) % 256)) := by
  induction k generalizing dst with
  | zero => simp [biasLoop, ← hd]
  | succ i ih =>
    have hi : i < src.length := hk
    obtain ⟨j, hj⟩ : ∃ j, src.length - i - 1 = j := ⟨_, rfl⟩
    have hs : j < dst.length := by omega
    have hlen2 : (dst.set j ((src[i] + 0x33) % 256)).length = src.length := by
      simpa using hd
    have e1 : src.length - i = j + 1 := by omega
    have e2 : src.length - (i + 1) = j := by omega
    have e3 : src.take (i + 1) = src.take i ++ [src[i]] := by
      rw [List.take_succ, List.getElem?_eq_getElem hi]
      rfl
    rw [biasLoop, index_of_lt src i hi, bind_ok, hj, store_of_lt _ _ _ hs, bind_ok,
      ih _ (Nat.le_of_lt hi) hlen2, e1, e2, List.take_succ, List.getElem?_set_self hs,
      List.set_take, List.set_eq_of_length_le (by simp), e3]
    simp only [List.reverse_append, List.reverse_cons, List.reverse_nil, List.nil_append,
      List.map_append, List.map_cons, List.map_nil, Option.toList, List.append_assoc,
      List.singleton_append, List.cons_append]

/-- The frame `NewDLT645Frame` builds once the address is accepted. -/
theorem NewDLT645Frame_eq (address : List Nat) (ctrl : Nat) (DDDD data bcd : List Nat)
    (h : AddressToBCD address = .ok bcd) :
    NewDLT645Frame address ctrl DDDD data =
      .ok { Start := StartCtrl, Address := bcd, Start2 := StartCtrl, Ctrl := ctrl,
            DataLen := (DDDD.length + data.length) % 256,
            DDDD := DDDD.reverse.map fun b => (b + 0x33) % 256,
            Data := data.reverse.map fun b => (b + 0x33) % 256,
            CS := 0, End := EndCtrl } := by
  unfold NewDLT645Frame
  rw [h, bind_ok, biasLoop_eq DDDD _ _ (Nat.le_refl _) (by simp), bind_ok,
    biasLoop_eq data _ _ (Nat.le_refl _) (by simp), bind_ok]
  simp

theorem index_of_some (l : List Nat) (i v : Nat) (h : l[i]? = some v) : index l i = .ok v := by
  simp [index, h]

theorem ParseDLT645Frame_short (data : List Nat) (hlen : data.length < 12) :
    ParseDLT645Frame data = .error "data too short" := by
  simp [ParseDLT645Frame, hlen]

theorem ParseDLT645Frame_invalid (data : List Nat) (hlen : 12 ≤ data.length)
    (h : data[0]? ≠ some StartCtrl ∨ data[7]? ≠ some StartCtrl ∨
      data[data.length - 1]? ≠ some EndCtrl) :
    ParseDLT645Frame data = .error "invalid frame" := by
  have h0 : (0 : Nat) < data.length := by omega
  have h7 : 7 < data.length := by omega
  have hl : data.length - 1 < data.length := by omega
  rw [List.getElem?_eq_getElem h0, List.getElem?_eq_getElem h7, List.getElem?_eq_getElem hl] at h
  simp only [ne_eq, Option.some.injEq] at h
  unfold ParseDLT645Frame
  rw [if_neg (by omega), index_of_lt _ _ h0, bind_ok, index_of_lt _ _ h7, bind_ok,
    index_of_lt _ _ hl, bind_ok, if_pos h]

/-- A buffer with valid markers whose recomputed checksum differs from the byte the parser
reads as the checksum is rejected with "checksum error". -/
theorem ParseDLT645Frame_checksum (data : List Nat) (L cs : Nat) (hlen : 12 ≤ data.length)
    (h0 : data[0]? = some StartCtrl) (h7 : data[7]? = some StartCtrl)
    (hend : data[data.length - 1]? = some EndCtrl) (h9 : data[9]? = some L)
    (hcs : data[(10 + L) % 256]? = some cs)
    (hne : CalculateCS (data.take (data.length - 2)) ≠ cs) :
    ParseDLT645Frame data = .error "checksum error" := by
  have h8 : 8 < data.length := by omega
  unfold ParseDLT645Frame
  rw [if_neg (by omega), index_of_some _ _ _ h0, bind_ok, index_of_some _ _ _ h7, bind_ok,
    index_of_some _ _ _ hend, bind_ok, if_neg (by simp), index_of_lt _ _ h8, bind_ok,
    index_of_some _ _ _ h9, bind_ok]
  simp only [index_of_some _ _ _ hcs, bind_ok]
  rw [if_pos hne]

/-- A buffer with valid markers and a matching checksum whose control byte is one of the
two error replies is rejected with the error that carries the control code. -/
theorem ParseDLT645Frame_protocol (data : List Nat) (L ctrl : Nat) (hlen : 12 ≤ data.length)
    (h0 : data[0]? = some StartCtrl) (h7 : data[7]? = some StartCtrl)
    (hend : data[data.length - 1]? = some EndCtrl) (h8 : data[8]? = some ctrl)
    (h9 : data[9]? = some L)
    (hcs : data[(10 + L) % 256]? = some (CalculateCS (data.take (data.length - 2))))
    (hctrl : ctrl = ReadRepyErrCtrl ∨ ctrl = ReadRepyErrCtrl2) :
    ParseDLT645Frame data = .error (readRespErr ctrl) := by
  unfold ParseDLT645Frame
  rw [if_neg (by omega), index_of_some _ _ _ h0, bind_ok, index_of_some _ _ _ h7, bind_ok,
    index_of_some _ _ _ hend, bind_ok, if_neg (by simp), index_of_some _ _ _ h8, bind_ok,
    index_of_some _ _ _ h9, bind_ok]
  simp only [index_of_some _ _ _ hcs, bind_ok]
  rw [if_neg (by simp), if_pos hctrl]

/-- C5: a buffer of fewer than 12 bytes is rejected with "data too short" whatever its
content; a buffer of at least 12 bytes whose byte at offset 0 or at offset 7 is not 0x68, or
whose last byte is not 0x16, is rejected with "invalid frame" whatever its data-length byte
and checksum are. -/
theorem ParseDLT645Frame_structure :
    (∀ data : List Nat, data.length < 12 →
      ParseDLT645Frame data = .error "data too short") ∧
    (∀ data : List Nat, 12 ≤ data.length →
      (data[0]? ≠ some 0x68 ∨ data[7]? ≠ some 0x68 ∨ data[data.length - 1]? ≠ some 0x16) →
      ParseDLT645Frame data = .error "invalid frame") :=
  ⟨ParseDLT645Frame_short, ParseDLT645Frame_invalid⟩

theorem flipBit_lt (b k : Nat) (hb : b < 256) (hk : k < 8) : flipBit b k < 256 := by
  have h2 : 2 ^ k < 2 ^ 8 := Nat.pow_lt_pow_right (by decide) hk
  exact @Nat.xor_lt_two_pow b (2 ^ k) 8 hb h2

theorem flipBit_ne (b k : Nat) : flipBit b k ≠ b := by
  intro h
  have h1 : b ^^^ (b ^^^ 2 ^ k) = 2 ^ k := Nat.xor_cancel_left b (2 ^ k)
  unfold flipBit at h
  rw [h, Nat.xor_self] at h1
  have : 0 < 2 ^ k := Nat.pos_pow_of_pos k (by decide)
  omega

theorem length_six (a : List Nat) (h : a.length = 6) :
    ∃ b0 b1 b2 b3 b4 b5, a = [b0, b1, b2, b3, b4, b5] := by
  rcases a with _ | ⟨b0, _ | ⟨b1, _ | ⟨b2, _ | ⟨b3, _ | ⟨b4, _ | ⟨b5, _ | ⟨b6, t⟩⟩⟩⟩⟩⟩⟩ <;>
    simp at h
  exact ⟨b0, b1, b2, b3, b4, b5, rfl⟩

/-- The bytes `AddressToBCD` returns are bytes. -/
theorem AddressToBCD_bytes (a b : List Nat) (hlen : a.length = 12)
    (hdig : ∀ c ∈ a, isDigit c) (h : AddressToBCD a = .ok b) : ∀ x ∈ b, x < 256 := by
  obtain ⟨c0, c1, c2, c3, c4, c5, c6, c7, c8, c9, c10, c11, rfl⟩ := length_twelve a hlen
  rw [AddressToBCD_twelve _ _ _ _ _ _ _ _ _ _ _ _ hdig] at h
  cases h
  intro x hx
  simp only [List.mem_cons, List.mem_singleton, List.not_mem_nil, or_false] at hx
  rcases hx with rfl | rfl | rfl | rfl | rfl | rfl <;> exact Nat.mod_lt _ (by decide)

/-- The serialization of a frame built by `NewDLT645Frame`: a header `H` of `10 + L` bytes
followed by its checksum and the end marker. -/
theorem ToData_built (address : List Nat) (ctrl : Nat) (DDDD data : List Nat) (f : Frame)
    (hlen : address.length = 12) (hdig : ∀ c ∈ address, isDigit c)
    (hL : DDDD.length + data.length ≤ 255)
    (hf : NewDLT645Frame address ctrl DDDD data = .ok f) :
    ∃ H, f.ToData = H ++ [H.sum % 256, 0x16] ∧ H.length = 10 + (DDDD.length + data.length) ∧
      H[0]? = some 0x68 ∧ H[7]? = some 0x68 ∧ H[8]? = some ctrl ∧
      H[9]? = some (DDDD.length + data.length) ∧ (ctrl < 256 → ∀ x ∈ H, x < 256) := by
  obtain ⟨bcd, hbcd, hb6⟩ := AddressToBCD_ok address hlen hdig
  have hbytes := AddressToBCD_bytes address bcd hlen hdig hbcd
  rw [NewDLT645Frame_eq address ctrl DDDD data bcd hbcd] at hf
  cases hf
  obtain ⟨b0, b1, b2, b3, b4, b5, rfl⟩ := length_six bcd hb6
  have hmod : (DDDD.length + data.length) % 256 = DDDD.length + data.length :=
    Nat.mod_eq_of_lt (by omega)
  refine ⟨_, Frame.ToData_eq _, ?_, ?_, ?_, ?_, ?_, ?_⟩
  · simp [Frame.header]
    omega
  · simp [Frame.header, StartCtrl]
  · simp [Frame.header, StartCtrl]
  · simp [Frame.header]
  · simp [Frame.header, hmod]
  · intro hc x hx
    simp only [Frame.header, List.mem_append, List.mem_cons, List.mem_singleton,
      List.not_mem_nil, or_false, List.mem_map, List.mem_reverse] at hx
    rcases hx with (((rfl | hx) | (rfl | rfl | rfl)) | ⟨y, -, rfl⟩) | ⟨y, -, rfl⟩
    · simp [StartCtrl]
    · exact hbytes x (by simpa using hx)
    · simp [StartCtrl]
    · exact hc
    · exact Nat.mod_lt _ (by decide)
    · exact Nat.mod_lt _ (by decide)
    · exact Nat.mod_lt _ (by decide)

/-- C3: `f.ToData()` is `[Start] ++ Address ++ [Start2, Ctrl, DataLen] ++ DDDD ++ Data ++
[cs, End]` with `cs` the sum modulo 256 of every byte before it, whatever `f.CS` is; for a
frame built by `NewDLT645Frame` from a 12-digit address with `L = len(identifier) +
len(payload) <= 255` the output has length `12 + L`, bytes 0 and 7 are 0x68, byte 8 is the
control code, byte 9 is `L`, the checksum sits at offset `10 + L` and the end marker 0x16 at
offset `11 + L`. -/
theorem ToData_layout :
    (∀ f : Frame,
      f.ToData = [f.Start] ++ f.Address ++ [f.Start2, f.Ctrl, f.DataLen] ++ f.DDDD ++ f.Data
        ++ [([f.Start] ++ f.Address ++ [f.Start2, f.Ctrl, f.DataLen] ++ f.DDDD
              ++ f.Data).sum % 256, f.End] ∧
      ∀ c : Nat, Frame.ToData { f with CS := c } = f.ToData) ∧
    (∀ (address : List Nat) (ctrl : Nat) (DDDD data : List Nat),
      address.length = 12 → (∀ c ∈ address, isDigit c) → DDDD.length + data.length ≤ 255 →
      ∃ f, NewDLT645Frame address ctrl DDDD data = .ok f ∧
        f.ToData.length = 12 + (DDDD.length + data.length) ∧
        f.ToData[0]? = some 0x68 ∧ f.ToData[7]? = some 0x68 ∧ f.ToData[8]? = some ctrl ∧
        f.ToData[9]? = some (DDDD.length + data.length) ∧
        f.ToData[10 + (DDDD.length + data.length)]? =
          some ((f.ToData.take (10 + (DDDD.length + data.length))).sum % 256) ∧
        f.ToData[11 + (DDDD.length + data.length)]? = some 0x16) := by
  refine ⟨fun f => ⟨Frame.ToData_eq f, fun c => ?_⟩, ?_⟩
  · rw [Frame.ToData_eq, Frame.ToData_eq]
    rfl
  · intro address ctrl DDDD data hlen hdig hL
    obtain ⟨bcd, hbcd, -⟩ := AddressToBCD_ok address hlen hdig
    have hf := NewDLT645Frame_eq address ctrl DDDD data bcd hbcd
    refine ⟨_, hf, ?_⟩
    obtain ⟨H, hH, hHlen, h0, h7, h8, h9, -⟩ :=
      ToData_built address ctrl DDDD data _ hlen hdig hL hf
    rw [hH]
    have e10 : 10 + (DDDD.length + data.length) = H.length := hHlen.symm
    have e11 : 11 + (DDDD.length + data.length) = H.length + 1 := by omega
    refine ⟨by simp; omega, ?_, ?_, ?_, ?_, ?_, ?_⟩
    · rw [List.getElem?_append_left (by omega)]; exact h0
    · rw [List.getElem?_append_left (by omega)]; exact h7
    · rw [List.getElem?_append_left (by omega)]; exact h8
    · rw [List.getElem?_append_left (by omega)]; exact h9
    · rw [e10, List.take_left, List.getElem?_append_right (Nat.le_refl _)]
      simp
    · rw [e11, List.getElem?_append_right (by omega)]
      simp

/-- Witness of C3: the frame reading identifier 00 00 01 00 from meter "202204080026". -/
theorem ToData_layout_witness :
    ∃ f, NewDLT645Frame (goString "202204080026") 0x11 [0x00, 0x01, 0x00, 0x00] [] = .ok f ∧
      f.ToData.length = 12 + (4 + 0) ∧
      f.ToData[0]? = some 0x68 ∧ f.ToData[7]? = some 0x68 ∧ f.ToData[8]? = some 0x11 ∧
      f.ToData[9]? = some (4 + 0) ∧
      f.ToData[10 + (4 + 0)]? = some ((f.ToData.take (10 + (4 + 0))).sum % 256) ∧
      f.ToData[11 + (4 + 0)]? = some 0x16 :=
  ToData_layout.2 (goString "202204080026") 0x11 [0x00, 0x01, 0x00, 0x00] []
    (by decide) (by decide) (by decide)

set_option maxRecDepth 100000 in
/-- C4 fails on the code at two buffers with valid markers whose second-to-last byte differs
from the sum modulo 256 of the bytes before it, and which the parser accepts all the same.
In the 12-byte buffer the sum is 0x16 and the second-to-last byte 0x00, but the data-length
byte is 1 and the buffer length is never checked against it, so the sum is compared with
the end marker at offset 11.  In the 258-byte buffer (data-length byte 246, so a frame of
exactly `12 + 246` bytes) the sum is 0x68 and the second-to-last byte 0x00, but the
byte-typed offset `10 + 246` wraps to 0, so the sum is compared with the start marker. -/
theorem checksum_byte_not_compared :
    (12 ≤ [0x68, 0, 0, 0, 0, 0, 0, 0x68, 0x45, 1, 0x00, 0x16].length ∧
      [0x68, 0, 0, 0, 0, 0, 0, 0x68, 0x45, 1, 0x00, 0x16][0]? = some 0x68 ∧
      [0x68, 0, 0, 0, 0, 0, 0, 0x68, 0x45, 1, 0x00, 0x16][7]? = some 0x68 ∧
      [0x68, 0, 0, 0, 0, 0, 0, 0x68, 0x45, 1, 0x00, 0x16][11]? = some 0x16 ∧
      ([0x68, 0, 0, 0, 0, 0, 0, 0x68, 0x45, 1, 0x00, 0x16].take 10).sum % 256 = 0x16 ∧
      [0x68, 0, 0, 0, 0, 0, 0, 0x68, 0x45, 1, 0x00, 0x16][10]? = some 0x00 ∧
      ParseDLT645Frame [0x68, 0, 0, 0, 0, 0, 0, 0x68, 0x45, 1, 0x00, 0x16] =
        .ok { Start := 0x68, Address := [0, 0, 0, 0, 0, 0], Start2 := 0x68, Ctrl := 0x45,
              DataLen := 1, DDDD := [], Data := [], CS := 0x16, End := 0x16 }) ∧
    (([0x68, 0, 0, 0, 0, 0, 0, 0x68, 0x91, 246, 17] ++ List.replicate 245 0
        ++ [0x00, 0x16]).length = 12 + 246 ∧
      ([0x68, 0, 0, 0, 0, 0, 0, 0x68, 0x91, 246, 17] ++ List.replicate 245 0
        ++ [0x00, 0x16])[0]? = some 0x68 ∧
      ([0x68, 0, 0, 0, 0, 0, 0, 0x68, 0x91, 246, 17] ++ List.replicate 245 0
        ++ [0x00, 0x16])[7]? = some 0x68 ∧
      ([0x68, 0, 0, 0, 0, 0, 0, 0x68, 0x91, 246, 17] ++ List.replicate 245 0
        ++ [0x00, 0x16])[257]? = some 0x16 ∧
      (([0x68, 0, 0, 0, 0, 0, 0, 0x68, 0x91, 246, 17] ++ List.replicate 245 0
        ++ [0x00, 0x16]).take 256).sum % 256 = 0x68 ∧
      ([0x68, 0, 0, 0, 0, 0, 0, 0x68, 0x91, 246, 17] ++ List.replicate 245 0
        ++ [0x00, 0x16])[256]? = some 0x00 ∧
      ParseDLT645Frame ([0x68, 0, 0, 0, 0, 0, 0, 0x68, 0x91, 246, 17] ++ List.replicate 245 0
        ++ [0x00, 0x16]) ≠ .error "checksum error" ∧
      ParseDLT645Frame ([0x68, 0, 0, 0, 0, 0, 0, 0x68, 0x91, 246, 17] ++ List.replicate 245 0
        ++ [0x00, 0x16]) ≠ .panic) := by
  decide

/-- The checksum check where the parser performs it: for a buffer with valid markers,
data-length byte `L <= 245` and offset `10 + L` inside the buffer, a sum modulo 256 of all
bytes except the last two that differs from the byte at offset `10 + L` gives
"checksum error". -/
theorem checksum_mismatch (data : List Nat) (L cs : Nat) (hlen : 12 ≤ data.length)
    (h0 : data[0]? = some 0x68) (h7 : data[7]? = some 0x68)
    (hend : data[data.length - 1]? = some 0x16) (h9 : data[9]? = some L) (hL : L ≤ 245)
    (hcs : data[10 + L]? = some cs)
    (hne : (data.take (data.length - 2)).sum % 256 ≠ cs) :
    ParseDLT645Frame data = .error "checksum error" := by
  have hmod : (10 + L) % 256 = 10 + L := Nat.mod_eq_of_lt (by omega)
  exact ParseDLT645Frame_checksum data L cs hlen h0 h7 hend h9 (by rw [hmod]; exact hcs)
    (by rw [CalculateCS_eq]; exact hne)

/-- An instance of `checksum_mismatch`: a 16-byte frame whose checksum byte was zeroed. -/
theorem checksum_mismatch_witness :
    ParseDLT645Frame
        [0x68, 0x26, 0, 0x08, 0x04, 0x22, 0x20, 0x68, 0x11, 4, 0x33, 0x33, 0x34, 0x33, 0, 0x16] =
      .error "checksum error" :=
  checksum_mismatch
    [0x68, 0x26, 0, 0x08, 0x04, 0x22, 0x20, 0x68, 0x11, 4, 0x33, 0x33, 0x34, 0x33, 0, 0x16]
    4 0 (by decide) (by decide) (by decide) (by decide) (by decide) (by decide) (by decide)
    (by decide)

/-- Where the buffer is a frame of exactly `12 + L` bytes with `L <= 245`, the byte the
parser compares is the second-to-last byte: a sum that differs from it gives
"checksum error". -/
theorem checksum_mismatch_framed (data : List Nat) (L cs : Nat)
    (hlen : data.length = 12 + L) (hL : L ≤ 245)
    (h0 : data[0]? = some 0x68) (h7 : data[7]? = some 0x68)
    (hend : data[data.length - 1]? = some 0x16) (h9 : data[9]? = some L)
    (hcs : data[data.length - 2]? = some cs)
    (hne : (data.take (data.length - 2)).sum % 256 ≠ cs) :
    ParseDLT645Frame data = .error "checksum error" := by
  have e : data.length - 2 = 10 + L := by omega
  exact checksum_mismatch data L cs (by omega) h0 h7 hend h9 hL (by rw [← e]; exact hcs) hne

/-- The error-reply case of `ParseDLT645Frame` for frames whose data-length byte is at most
245: a buffer of `12 + L` bytes with valid markers and checksum and control byte 0xD1 or 0xD2
is rejected with the error carrying the control code. -/
theorem ParseDLT645Frame_error_reply (data : List Nat) (L ctrl : Nat)
    (hlen : data.length = 12 + L) (hL : L ≤ 245)
    (h0 : data[0]? = some 0x68) (h7 : data[7]? = some 0x68)
    (hend : data[data.length - 1]? = some 0x16) (h8 : data[8]? = some ctrl)
    (h9 : data[9]? = some L)
    (hcs : data[data.length - 2]? = some ((data.take (data.length - 2)).sum % 256))
    (hctrl : ctrl = 0xD1 ∨ ctrl = 0xD2) :
    ParseDLT645Frame data = .error (readRespErr ctrl) ∧
      (ctrl = 0xD1 → readRespErr ctrl = "read resp err: 0xd1") ∧
      (ctrl = 0xD2 → readRespErr ctrl = "read resp err: 0xd2") := by
  have hmod : (10 + L) % 256 = data.length - 2 := by
    rw [Nat.mod_eq_of_lt (by omega)]
    omega
  refine ⟨ParseDLT645Frame_protocol data L ctrl (by omega) h0 h7 hend h8 h9
    (by rw [hmod, CalculateCS_eq]; exact hcs) hctrl, ?_, ?_⟩
  · rintro rfl
    decide
  · rintro rfl
    decide

set_option maxRecDepth 100000 in
/-- C6 fails on the code at a frame with data-length byte 246: the buffer has `12 + 246`
bytes, valid markers, control byte 0xD1 and a correct checksum 0x97 in its second-to-last
byte, yet the parser reads the checksum at the byte-typed offset `(10 + 246) mod 256 = 0`
and reports "checksum error" instead of the protocol error. -/
theorem error_reply_long_frame :
    ([0x68, 0, 0, 0, 0, 0, 0, 0x68, 0xD1, 246] ++ List.replicate 246 0 ++ [0x97, 0x16]).length
      = 12 + 246 ∧
    (([0x68, 0, 0, 0, 0, 0, 0, 0x68, 0xD1, 246] ++ List.replicate 246 0
      ++ [0x97, 0x16]).take 256).sum % 256 = 0x97 ∧
    ParseDLT645Frame
        ([0x68, 0, 0, 0, 0, 0, 0, 0x68, 0xD1, 246] ++ List.replicate 246 0 ++ [0x97, 0x16]) =
      .error "checksum error" := by
  decide

set_option maxRecDepth 100000 in
/-- C1 fails on the code at a payload of 242 bytes (inside the claimed range 0..250): the
frame built for address "000000000000", control 0x11, identifier 00 00 00 00 and 242 zero
bytes has data length 246, and parsing its serialization reports "checksum error". -/
theorem roundtrip_long_payload :
    ∃ f, NewDLT645Frame (goString "000000000000") 0x11 [0, 0, 0, 0] (List.replicate 242 0)
        = .ok f ∧
      f.DataLen = 246 ∧ f.ToData.length = 258 ∧
      ParseDLT645Frame f.ToData = .error "checksum error" :=
  ⟨_, NewDLT645Frame_eq _ _ _ _ [0, 0, 0, 0, 0, 0] (by decide), by decide, by decide, by decide⟩

/-- Overwriting one non-marker, non-length byte of a header `H` of `10 + L` bytes (`L <= 245`)
with a different byte value, the checksum and end marker kept, is rejected with
"checksum error". -/
theorem corrupt_header (H : List Nat) (L j v : Nat) (hHlen : H.length = 10 + L)
    (hL : L ≤ 245) (h0 : H[0]? = some 0x68) (h7 : H[7]? = some 0x68) (h9 : H[9]? = some L)
    (hj : j < H.length) (hj0 : j ≠ 0) (hj7 : j ≠ 7) (hj9 : j ≠ 9)
    (hb : H[j] < 256) (hv : v < 256) (hne : v ≠ H[j]) :
    ParseDLT645Frame (H.set j v ++ [H.sum % 256, 0x16]) = .error "checksum error" := by
  have hsl : (H.set j v).length = H.length := List.length_set _ _ _
  have hlen : (H.set j v ++ [H.sum % 256, 0x16]).length = H.length + 2 := by simp
  have hmod : (10 + L) % 256 = H.length := by
    rw [Nat.mod_eq_of_lt (by omega)]
    omega
  have hsum := sum_set_add H j v hj
  apply ParseDLT645Frame_checksum _ L (H.sum % 256)
  · omega
  · rw [List.getElem?_append_left (by omega), List.getElem?_set_ne hj0]
    exact h0
  · rw [List.getElem?_append_left (by omega), List.getElem?_set_ne hj7]
    exact h7
  · rw [hlen, List.getElem?_append_right (by omega), hsl]
    simp [EndCtrl]
  · rw [List.getElem?_append_left (by omega), List.getElem?_set_ne hj9]
    exact h9
  · rw [hmod, List.getElem?_append_right (by omega), hsl]
    simp
  · rw [hlen, CalculateCS_eq, Nat.add_sub_cancel, List.take_left' hsl]
    omega

/-- C7 as stated fails: flipping the lowest bit of the first byte (the start marker) of the
frame reading identifier 00 00 01 00 from meter "202204080026" is reported as
"invalid frame", not as "checksum error". -/
theorem bit_flip_marker_counterexample :
    ∃ f, NewDLT645Frame (goString "202204080026") 0x11 [0x00, 0x01, 0x00, 0x00] [] = .ok f ∧
      ParseDLT645Frame (f.ToData.set 0 (flipBit (f.ToData.getD 0 0) 0)) =
        .error "invalid frame" ∧
      ParseDLT645Frame (f.ToData.set 0 (flipBit (f.ToData.getD 0 0) 0)) ≠
        .error "checksum error" :=
  ⟨_, NewDLT645Frame_eq _ _ _ _ [0x26, 0x00, 0x08, 0x04, 0x22, 0x20] (by decide),
    by decide, by decide⟩

/-- C7 (amended): for every buffer produced by `NewDLT645Frame(...).ToData()` from a
12-digit address, a control byte, a 4-byte identifier and a payload of at most 241 bytes,
flipping any single bit of an address, control, identifier or payload byte (any offset other
than the markers at 0, 7 and the end, the data-length byte at 9 and the checksum byte) makes
`ParseDLT645Frame` fail with "checksum error"; flipping a bit of a marker byte makes it fail
with "invalid frame". -/
theorem bit_flip_detected (address : List Nat) (ctrl : Nat) (DDDD data : List Nat)
    (hlen : address.length = 12) (hdig : ∀ c ∈ address, isDigit c) (hctrl : ctrl < 256)
    (hid : DDDD.length = 4) (hpl : data.length ≤ 241) :
    ∃ f, NewDLT645Frame address ctrl DDDD data = .ok f ∧
      ∀ j k, j < f.ToData.length → k < 8 →
        ((j = 0 ∨ j = 7 ∨ j = f.ToData.length - 1) →
          ParseDLT645Frame (f.ToData.set j (flipBit (f.ToData.getD j 0) k)) =
            .error "invalid frame") ∧
        (j ≠ 0 → j ≠ 7 → j ≠ 9 → j ≠ f.ToData.length - 2 → j ≠ f.ToData.length - 1 →
          ParseDLT645Frame (f.ToData.set j (flipBit (f.ToData.getD j 0) k)) =
            .error "checksum error") := by
  obtain ⟨bcd, hbcd, -⟩ := AddressToBCD_ok address hlen hdig
  have hf := NewDLT645Frame_eq address ctrl DDDD data bcd hbcd
  refine ⟨_, hf, ?_⟩
  obtain ⟨H, hH, hHlen, h0, h7, h8, h9, hbytes⟩ :=
    ToData_built address ctrl DDDD data _ hlen hdig (by omega) hf
  rw [hH]
  have hlen2 : (H ++ [H.sum % 256, 0x16]).length = H.length + 2 := by simp
  intro j k hj hk
  rw [hlen2] at hj
  rw [hlen2]
  constructor
  · intro hm
    apply ParseDLT645Frame_invalid
    · rw [List.length_set, hlen2]
      omega
    · rw [List.length_set, hlen2]
      rcases hm with rfl | rfl | rfl
      · left
        rw [List.getElem?_set_self (by omega), List.getD_eq_getElem?_getD,
          List.getElem?_append_left (by omega), h0]
        simpa [StartCtrl] using flipBit_ne 104 k
      · right
        left
        rw [List.getElem?_set_self (by omega), List.getD_eq_getElem?_getD,
          List.getElem?_append_left (by omega), h7]
        simpa [StartCtrl] using flipBit_ne 104 k
      · right
        right
        rw [List.getElem?_set_self (by omega), List.getD_eq_getElem?_getD,
          List.getElem?_append_right (by omega)]
        have e : H.length + 2 - 1 - H.length = 1 := by omega
        rw [e]
        simpa [EndCtrl] using flipBit_ne 22 k
  · intro hj0 hj7 hj9 hjc hje
    have hjH : j < H.length := by omega
    have hget : (H ++ [H.sum % 256, 0x16]).getD j 0 = H[j] := by
      rw [List.getD_eq_getElem?_getD, List.getElem?_append_left hjH,
        List.getElem?_eq_getElem hjH]
      rfl
    have hb : H[j] < 256 := hbytes hctrl _ (List.getElem_mem hjH)
    rw [hget, List.set_append_left _ _ hjH]
    exact corrupt_header H (DDDD.length + data.length) j _ hHlen (by omega) h0 h7 h9 hjH hj0
      hj7 hj9 hb (flipBit_lt _ _ hb hk) (flipBit_ne _ _)

/-- Witness of C7 (amended) at the frame reading identifier 00 00 01 00 from meter
"202204080026". -/
theorem bit_flip_detected_witness :
    ∃ f, NewDLT645Frame (goString "202204080026") 0x11 [0x00, 0x01, 0x00, 0x00] [] = .ok f ∧
      ∀ j k, j < f.ToData.length → k < 8 →
        ((j = 0 ∨ j = 7 ∨ j = f.ToData.length - 1) →
          ParseDLT645Frame (f.ToData.set j (flipBit (f.ToData.getD j 0) k)) =
            .error "invalid frame") ∧
        (j ≠ 0 → j ≠ 7 → j ≠ 9 → j ≠ f.ToData.length - 2 → j ≠ f.ToData.length - 1 →
          ParseDLT645Frame (f.ToData.set j (flipBit (f.ToData.getD j 0) k)) =
            .error "checksum error") :=
  bit_flip_detected (goString "202204080026") 0x11 [0x00, 0x01, 0x00, 0x00] []
    (by decide) (by decide) (by decide) (by decide) (by decide)

theorem ddddLoop_eq_dataLoop (data : List Nat) (i : Nat) (dddd : List Nat) :
    ddddLoop data i dddd = dataLoop data 0 i dddd := by
  induction i generalizing dddd with
  | zero => rfl
  | succ i ih =>
    unfold ddddLoop dataLoop
    simp only [ih, Nat.add_zero]

/-- The second decoding loop writes the `i` bytes at offset `10 + nd`, un-biased and
reversed, into the last `i` places of `out`. -/
theorem dataLoop_eq (data : List Nat) (nd i : Nat) (out : List Nat) (hi : i ≤ out.length)
    (hd : 10 + nd + i ≤ data.length) :
    dataLoop data nd i out =
      .ok (out.take (out.length - i)
        ++ (((data.drop (10 + nd)).take i).reverse.map fun b => (b + 256 - 0x33) % 256)) := by
  induction i generalizing out with
  | zero => simp [dataLoop]
  | succ i ih =>
    obtain ⟨j, hj⟩ : ∃ j, out.length - (i + 1) = j := ⟨_, rfl⟩
    have hs : j < out.length := by omega
    have hx : 10 + nd + (i + 1) - 1 < data.length := by omega
    have hxi : i < (data.drop (10 + nd)).length := by
      rw [List.length_drop]
      omega
    have e1 : ∀ v, (out.set j v).length - i = j + 1 := by
      intro v
      rw [List.length_set]
      omega
    have e3 : (data.drop (10 + nd)).take (i + 1)
        = (data.drop (10 + nd)).take i ++ [data[10 + nd + (i + 1) - 1]] := by
      rw [List.take_succ, List.getElem?_eq_getElem hxi, List.getElem_drop]
      have e4 : 10 + nd + i = 10 + nd + (i + 1) - 1 := by omega
      simp only [e4]
      rfl
    rw [dataLoop, if_pos hi, index_of_lt _ _ hx, bind_ok, hj, store_of_lt _ _ _ hs, bind_ok,
      ih _ (by rw [List.length_set]; omega) (by omega), e1, List.take_succ,
      List.getElem?_set_self hs, List.set_take, List.set_eq_of_length_le (by simp), e3]
    simp only [List.reverse_append, List.reverse_cons, List.reverse_nil, List.nil_append,
      List.map_append, List.map_cons, List.map_nil, Option.toList, List.append_assoc,
      List.singleton_append, List.cons_append]

/-- The frame `ParseDLT645Frame` returns on a buffer that passes the marker, checksum and
control checks, with data-length byte `4 <= L <= 245` and the `L`-byte block inside it. -/
theorem ParseDLT645Frame_ok (data : List Nat) (L ctrl cs : Nat) (hlen : 12 ≤ data.length)
    (h0 : data[0]? = some 0x68) (h7 : data[7]? = some 0x68)
    (hend : data[data.length - 1]? = some 0x16) (h8 : data[8]? = some ctrl)
    (h9 : data[9]? = some L) (h4 : 4 ≤ L) (hL : L ≤ 245) (hbody : 10 + L ≤ data.length)
    (hcs : data[10 + L]? = some cs)
    (hsum : (data.take (data.length - 2)).sum % 256 = cs)
    (hc1 : ctrl ≠ 0xD1) (hc2 : ctrl ≠ 0xD2) :
    ParseDLT645Frame data =
      .ok { Start := 0x68, Address := (data.drop 1).take 6, Start2 := 0x68, Ctrl := ctrl,
            DataLen := L,
            DDDD := ((data.drop 10).take 4).reverse.map fun b => (b + 256 - 0x33) % 256,
            Data := ((data.drop 14).take (L - 4)).reverse.map fun b => (b + 256 - 0x33) % 256,
            CS := cs, End := 0x16 } := by
  have hmod : (10 + L) % 256 = 10 + L := Nat.mod_eq_of_lt (by omega)
  have hmod4 : (L - 4) % 256 = L - 4 := Nat.mod_eq_of_lt (by omega)
  have hge : L ≥ 4 := h4
  unfold ParseDLT645Frame
  rw [if_neg (by omega), index_of_some _ _ _ h0, bind_ok, index_of_some _ _ _ h7, bind_ok,
    index_of_some _ _ _ hend, bind_ok, if_neg (by simp [StartCtrl, EndCtrl]),
    index_of_some _ _ _ h8, bind_ok, index_of_some _ _ _ h9, bind_ok]
  simp only [hmod, index_of_some _ _ _ hcs, bind_ok, CalculateCS_eq, hsum, ne_eq,
    not_true_eq_false, if_false, if_true, hge, hmod4, List.length_replicate]
  rw [if_neg (by simp [ReadRepyErrCtrl, ReadRepyErrCtrl2, hc1, hc2]), ddddLoop_eq_dataLoop,
    dataLoop_eq _ _ _ _ (by simp) (by omega), bind_ok]
  simp only [List.length_replicate, Nat.sub_self, List.take_zero, List.nil_append,
    List.length_map, List.length_reverse, List.length_take, List.length_drop]
  have e4 : min 4 (data.length - (10 + 0)) = 4 := by omega
  rw [e4, dataLoop_eq _ _ _ _ (by simp) (by omega), bind_ok]
  simp

theorem getElem?_snoc_cs (P : List Nat) (c e n : Nat) (h : P.length = n) :
    (P ++ [c, e])[n]? = some c := by
  subst h
  rw [List.getElem?_append_right (Nat.le_refl _)]
  simp

theorem getElem?_snoc_end (P : List Nat) (c e n : Nat) (h : P.length = n) :
    (P ++ [c, e])[n + 1]? = some e := by
  subst h
  rw [List.getElem?_append_right (by omega)]
  simp

/-- Removing the bias from a biased, reversed byte sequence and reversing again gives the
bytes back. -/
theorem unbias_bias (l : List Nat) (hl : ∀ b ∈ l, b < 256) :
    ((l.reverse.map fun b => (b + 0x33) % 256).reverse.map fun b => (b + 256 - 0x33) % 256)
      = l := by
  rw [← List.map_reverse, List.reverse_reverse, List.map_map]
  conv_rhs => rw [← List.map_id l]
  apply List.map_congr_left
  intro b hb
  have := hl b hb
  simp only [Function.comp_apply, id_eq]
  omega

/-- Round trip for payloads of at most 241 bytes: parsing the serialization of a frame built
from a 12-digit address, a control byte other than 0xD1 and 0xD2, a 4-byte identifier and
such a payload succeeds and gives back the address, control code, identifier and payload. -/
theorem roundtrip_short_payload (address : List Nat) (ctrl : Nat) (DDDD data : List Nat)
    (hlen : address.length = 12) (hdig : ∀ c ∈ address, isDigit c)
    (hc1 : ctrl ≠ 0xD1) (hc2 : ctrl ≠ 0xD2)
    (hid : DDDD.length = 4) (hidb : ∀ b ∈ DDDD, b < 256)
    (hpl : data.length ≤ 241) (hplb : ∀ b ∈ data, b < 256) :
    ∃ f g, NewDLT645Frame address ctrl DDDD data = .ok f ∧
      ParseDLT645Frame f.ToData = .ok g ∧ BCDToAddress g.Address = .ok address ∧
      g.Ctrl = ctrl ∧ g.DDDD = DDDD ∧ g.Data = data ∧
      f.ToData[f.ToData.length - 2]? = some g.CS := by
  obtain ⟨bcd, hbcd, hb6⟩ := AddressToBCD_ok address hlen hdig
  have hdec := BCDToAddress_AddressToBCD address bcd hlen hdig hbcd
  have hf := NewDLT645Frame_eq address ctrl DDDD data bcd hbcd
  obtain ⟨b0, b1, b2, b3, b4, b5, rfl⟩ := length_six bcd hb6
  have hmod : (DDDD.length + data.length) % 256 = 4 + data.length := by
    rw [hid]
    exact Nat.mod_eq_of_lt (by omega)
  obtain ⟨dd, hdd⟩ : ∃ dd, dd = DDDD.reverse.map fun b => (b + 0x33) % 256 := ⟨_, rfl⟩
  obtain ⟨rd, hrd⟩ : ∃ rd, rd = data.reverse.map fun b => (b + 0x33) % 256 := ⟨_, rfl⟩
  have hddl : dd.length = 4 := by rw [hdd]; simpa using hid
  have hrdl : rd.length = data.length := by rw [hrd]; simp
  obtain ⟨cs, hcs⟩ : ∃ cs, cs = ([0x68, b0, b1, b2, b3, b4, b5, 0x68, ctrl, 4 + data.length]
      ++ dd ++ rd).sum % 256 := ⟨_, rfl⟩
  have hbuf : ∀ f, NewDLT645Frame address ctrl DDDD data = .ok f → f.ToData
      = [0x68, b0, b1, b2, b3, b4, b5, 0x68, ctrl, 4 + data.length] ++ dd ++ rd ++ [cs, 0x16] := by
    intro f h
    rw [hf] at h
    cases h
    rw [Frame.ToData_eq, hcs, hdd, hrd]
    simp [Frame.header, StartCtrl, EndCtrl, hmod]
  have hP : ([0x68, b0, b1, b2, b3, b4, b5, 0x68, ctrl, 4 + data.length] ++ dd ++ rd).length
      = 10 + (4 + data.length) := by
    simp only [List.length_append, List.length_cons, List.length_nil, hddl, hrdl]
    omega
  have hblen : ([0x68, b0, b1, b2, b3, b4, b5, 0x68, ctrl, 4 + data.length] ++ dd ++ rd
      ++ [cs, 0x16]).length = 16 + data.length := by
    rw [List.length_append, hP]
    simp only [List.length_cons, List.length_nil]
    omega
  have e1 : 16 + data.length - 1 = 10 + (4 + data.length) + 1 := by omega
  have e2 : 16 + data.length - 2 = 10 + (4 + data.length) := by omega
  have hpar := ParseDLT645Frame_ok
    ([0x68, b0, b1, b2, b3, b4, b5, 0x68, ctrl, 4 + data.length] ++ dd ++ rd ++ [cs, 0x16])
    (4 + data.length) ctrl cs (by omega) (by simp) (by simp)
    (by rw [hblen, e1]; exact getElem?_snoc_end _ _ _ _ hP)
    (by simp) (by simp) (by omega) (by omega) (by omega)
    (getElem?_snoc_cs _ _ _ _ hP)
    (by rw [hblen, e2, List.take_left' hP, hcs])
    hc1 hc2
  refine ⟨_, _, hf, (congrArg ParseDLT645Frame (hbuf _ hf)).trans hpar, ?_, ?_, ?_, ?_, ?_⟩
  · simpa using hdec
  · rfl
  · simp only [List.append_assoc, List.cons_append, List.nil_append, List.drop_succ_cons,
      List.drop_zero]
    rw [List.take_left' hddl, hdd]
    exact unbias_bias DDDD hidb
  · simp only [List.append_assoc, List.cons_append, List.nil_append, List.drop_succ_cons,
      List.drop_zero]
    rw [List.drop_left' hddl, Nat.add_sub_cancel_left, List.take_left' hrdl, hrd]
    exact unbias_bias data hplb
  · rw [hbuf _ hf, hblen, e2]
    exact getElem?_snoc_cs _ _ _ _ hP

/-- An address shorter than 12 bytes makes `AddressToBCD` panic. -/
theorem AddressToBCD_short (a : List Nat) (h : a.length < 12) : AddressToBCD a = .panic := by
  have h2 : ¬ a.length > 12 := by omega
  simp [AddressToBCD, h, h2]

/-- C11 fails on the code at the address "1234": `AddressToBCD` panics on it (the padding
count `len(address)-12` is negative), while the same digits right-padded with zeros to
"123400000000" are encoded as 00 00 00 00 34 12. -/
theorem short_address_panics :
    AddressToBCD (goString "1234") = .panic ∧
    AddressToBCD (goString "123400000000") = .ok [0x00, 0x00, 0x00, 0x00, 0x34, 0x12] := by
  decide

theorem Itoa_digit (n : Nat) (h : n ≤ 9) : Itoa n = [48 + n] := by
  interval_cases n <;> rfl

theorem high_nibble (b : Nat) : b >>> 4 = b / 16 := Nat.shiftRight_eq_div_pow b 4

theorem low_nibble (b : Nat) : b &&& 0x0F = b % 16 := Nat.and_pow_two_sub_one_eq_mod b 4

/-- C12 as stated fails: the byte 0xAB has nibbles 10 and 11, each of which `strconv.Itoa`
prints as two characters, so the six bytes AB 00 00 00 00 00 decode to the 14-character
string "00000000001011". -/
theorem BCDToAddress_nibble_counterexample :
    [0xAB, 0x00, 0x00, 0x00, 0x00, 0x00].length = 6 ∧
    BCDToAddress [0xAB, 0x00, 0x00, 0x00, 0x00, 0x00] = .ok (goString "00000000001011") ∧
    (goString "00000000001011").length = 14 := by
  decide

/-- What `BCDToAddress` returns on six bytes whose nibbles are all at most 9. -/
theorem BCDToAddress_six_digits (b0 b1 b2 b3 b4 b5 : Nat)
    (hn : ∀ b ∈ [b0, b1, b2, b3, b4, b5], b / 16 ≤ 9 ∧ b % 16 ≤ 9) :
    BCDToAddress [b0, b1, b2, b3, b4, b5] =
      .ok [48 + b5 / 16, 48 + b5 % 16, 48 + b4 / 16, 48 + b4 % 16, 48 + b3 / 16, 48 + b3 % 16,
           48 + b2 / 16, 48 + b2 % 16, 48 + b1 / 16, 48 + b1 % 16, 48 + b0 / 16,
           48 + b0 % 16] := by
  simp only [List.mem_cons, List.mem_singleton, forall_eq_or_imp, forall_eq,
    List.not_mem_nil, IsEmpty.forall_iff, implies_true, and_true] at hn
  obtain ⟨⟨h0, l0⟩, ⟨h1, l1⟩, ⟨h2, l2⟩, ⟨h3, l3⟩, ⟨h4, l4⟩, ⟨h5, l5⟩⟩ := hn
  rw [BCDToAddress_six]
  simp only [high_nibble, low_nibble, Itoa_digit _ h0, Itoa_digit _ l0, Itoa_digit _ h1,
    Itoa_digit _ l1, Itoa_digit _ h2, Itoa_digit _ l2, Itoa_digit _ h3, Itoa_digit _ l3,
    Itoa_digit _ h4, Itoa_digit _ l4, Itoa_digit _ h5, Itoa_digit _ l5, List.append_assoc,
    List.singleton_append, List.cons_append, List.nil_append]

/-- C12 (amended): for every 6-byte input whose nibbles are all at most 9, `BCDToAddress`
succeeds and returns a string of exactly 12 decimal digits, obtained by reading the bytes
from index 5 down to index 0 and emitting each byte's high nibble then low nibble as one
decimal digit each; for every input whose length is not 6 it fails. -/
theorem BCDToAddress_digits :
    (∀ bcd : List Nat, bcd.length = 6 → (∀ b ∈ bcd, b / 16 ≤ 9 ∧ b % 16 ≤ 9) →
      ∃ s, BCDToAddress bcd = .ok s ∧ s.length = 12 ∧ (∀ c ∈ s, isDigit c) ∧
        ∀ i, i < 6 → s[2 * i]? = some (48 + bcd.getD (5 - i) 0 / 16) ∧
          s[2 * i + 1]? = some (48 + bcd.getD (5 - i) 0 % 16)) ∧
    (∀ bcd : List Nat, bcd.length ≠ 6 →
      BCDToAddress bcd = .error "BCD byte array must be exactly 6 bytes long") := by
  constructor
  · intro bcd hlen hn
    obtain ⟨b0, b1, b2, b3, b4, b5, rfl⟩ := length_six bcd hlen
    refine ⟨_, BCDToAddress_six_digits _ _ _ _ _ _ hn, ?_, ?_, ?_⟩
    · simp
    · simp only [List.mem_cons, List.mem_singleton, forall_eq_or_imp, forall_eq,
        List.not_mem_nil, IsEmpty.forall_iff, implies_true, and_true] at hn
      obtain ⟨⟨h0, l0⟩, ⟨h1, l1⟩, ⟨h2, l2⟩, ⟨h3, l3⟩, ⟨h4, l4⟩, ⟨h5, l5⟩⟩ := hn
      intro c hc
      simp only [List.mem_cons, List.mem_singleton, List.not_mem_nil, or_false] at hc
      unfold isDigit
      rcases hc with rfl | rfl | rfl | rfl | rfl | rfl | rfl | rfl | rfl | rfl | rfl | rfl <;>
        omega
    · intro i hi
      interval_cases i <;> simp
  · intro bcd hlen
    simp [BCDToAddress, hlen]

/-- Witness of C12 (amended) at the bytes 26 00 08 04 22 20. -/
theorem BCDToAddress_digits_witness :
    ∃ s, BCDToAddress [0x26, 0x00, 0x08, 0x04, 0x22, 0x20] = .ok s ∧ s.length = 12 ∧
      (∀ c ∈ s, isDigit c) ∧
      ∀ i, i < 6 →
        s[2 * i]? = some (48 + [0x26, 0x00, 0x08, 0x04, 0x22, 0x20].getD (5 - i) 0 / 16) ∧
        s[2 * i + 1]? = some (48 + [0x26, 0x00, 0x08, 0x04, 0x22, 0x20].getD (5 - i) 0 % 16) :=
  BCDToAddress_digits.1 [0x26, 0x00, 0x08, 0x04, 0x22, 0x20] (by decide) (by decide)

/-- Element `i` of a reversed, mapped list is the image of element `n - 1 - i`. -/
theorem getElem?_map_reverse (f : Nat → Nat) (l : List Nat) (i : Nat) (hi : i < l.length) :
    (l.reverse.map f)[i]? = some (f (l.getD (l.length - 1 - i) 0)) := by
  have h2 : l.length - 1 - i < l.length := by omega
  rw [List.getElem?_map, List.getElem?_reverse hi, List.getD_eq_getElem?_getD,
    List.getElem?_eq_getElem h2]
  rfl

/-- C13: for every 12-digit address, control byte, identifier of length `n` and payload of
length `m`, `NewDLT645Frame` returns a frame with `Start = Start2 = 0x68`, `End = 0x16`,
`Ctrl = ctrl`, `CS = 0`, `Address = AddressToBCD(address)`, `DDDD[i] = (identifier[n-1-i] +
0x33) mod 256` for every `i < n` and `Data[j] = (payload[m-1-j] + 0x33) mod 256` for every
`j < m`; when `AddressToBCD` fails it returns that error and no frame. -/
theorem NewDLT645Frame_fields :
    (∀ (address : List Nat) (ctrl : Nat) (DDDD data : List Nat),
      address.length = 12 → (∀ c ∈ address, isDigit c) →
      ∃ f bcd, NewDLT645Frame address ctrl DDDD data = .ok f ∧
        AddressToBCD address = .ok bcd ∧ f.Address = bcd ∧
        f.Start = 0x68 ∧ f.Start2 = 0x68 ∧ f.End = 0x16 ∧ f.Ctrl = ctrl ∧ f.CS = 0 ∧
        f.DDDD.length = DDDD.length ∧ f.Data.length = data.length ∧
        (∀ i, i < DDDD.length →
          f.DDDD[i]? = some ((DDDD.getD (DDDD.length - 1 - i) 0 + 0x33) % 256)) ∧
        (∀ j, j < data.length →
          f.Data[j]? = some ((data.getD (data.length - 1 - j) 0 + 0x33) % 256))) ∧
    (∀ (address : List Nat) (ctrl : Nat) (DDDD data : List Nat) (msg : String),
      AddressToBCD address = .error msg →
      NewDLT645Frame address ctrl DDDD data = .error msg) := by
  constructor
  · intro address ctrl DDDD data hlen hdig
    obtain ⟨bcd, hbcd, -⟩ := AddressToBCD_ok address hlen hdig
    refine ⟨_, bcd, NewDLT645Frame_eq address ctrl DDDD data bcd hbcd, hbcd, rfl, rfl, rfl,
      rfl, rfl, rfl, by simp, by simp, ?_, ?_⟩
    · intro i hi
      exact getElem?_map_reverse _ DDDD i hi
    · intro j hj
      exact getElem?_map_reverse _ data j hj
  · intro address ctrl DDDD data msg h
    unfold NewDLT645Frame
    rw [h]
    rfl

/-- Witness of C13: the frame reading identifier 00 00 01 00 from meter "202204080026". -/
theorem NewDLT645Frame_fields_witness :
    ∃ f bcd, NewDLT645Frame (goString "202204080026") 0x11 [0x00, 0x01, 0x00, 0x00] [0x07]
        = .ok f ∧
      AddressToBCD (goString "202204080026") = .ok bcd ∧ f.Address = bcd ∧
      f.Start = 0x68 ∧ f.Start2 = 0x68 ∧ f.End = 0x16 ∧ f.Ctrl = 0x11 ∧ f.CS = 0 ∧
      f.DDDD.length = [0x00, 0x01, 0x00, 0x00].length ∧ f.Data.length = [0x07].length ∧
      (∀ i, i < [0x00, 0x01, 0x00, 0x00].length →
        f.DDDD[i]? = some (([0x00, 0x01, 0x00, 0x00].getD
          ([0x00, 0x01, 0x00, 0x00].length - 1 - i) 0 + 0x33) % 256)) ∧
      (∀ j, j < [0x07].length →
        f.Data[j]? = some (([0x07].getD ([0x07].length - 1 - j) 0 + 0x33) % 256)) :=
  NewDLT645Frame_fields.1 (goString "202204080026") 0x11 [0x00, 0x01, 0x00, 0x00] [0x07]
    (by decide) (by decide)

/-- The data-length byte and the field lengths of a frame `NewDLT645Frame` returns. -/
theorem NewDLT645Frame_lengths (address : List Nat) (ctrl : Nat) (DDDD data : List Nat)
    (f : Frame) (hf : NewDLT645Frame address ctrl DDDD data = .ok f) :
    f.DataLen = (DDDD.length + data.length) % 256 ∧ f.DDDD.length = DDDD.length ∧
      f.Data.length = data.length := by
  cases hb : AddressToBCD address with
  | ok bcd =>
    rw [NewDLT645Frame_eq address ctrl DDDD data bcd hb] at hf
    cases hf
    simp
  | error msg =>
    unfold NewDLT645Frame at hf
    rw [hb] at hf
    cases hf
  | panic =>
    unfold NewDLT645Frame at hf
    rw [hb] at hf
    cases hf

set_option maxRecDepth 100000 in
/-- C14 as stated fails: with a 4-byte identifier and a payload of 252 bytes the frame is
built, its identifier and payload hold 256 bytes together, and its `DataLen` byte is 0. -/
theorem DataLen_wrap_counterexample :
    ∃ f, NewDLT645Frame (goString "000000000000") 0x11 [0, 0, 0, 0] (List.replicate 252 0)
        = .ok f ∧
      f.DataLen = 0 ∧ [0, 0, 0, 0].length + (List.replicate 252 0).length = 256 ∧
      f.DDDD.length + f.Data.length = 256 :=
  ⟨_, NewDLT645Frame_eq _ _ _ _ [0, 0, 0, 0, 0, 0] (by decide), by decide, by decide,
    by decide⟩

/-- C14 (amended): for every address, control byte, identifier and payload for which
`NewDLT645Frame` succeeds, the returned frame's `DataLen` byte equals
`(len(identifier) + len(payload)) mod 256`, and `len(frame.DDDD) + len(frame.Data)` equals
`len(identifier) + len(payload)`; so `DataLen` equals both whenever identifier and payload
hold at most 255 bytes together. -/
theorem NewDLT645Frame_DataLen (address : List Nat) (ctrl : Nat) (DDDD data : List Nat)
    (f : Frame) (hf : NewDLT645Frame address ctrl DDDD data = .ok f) :
    f.DataLen = (DDDD.length + data.length) % 256 ∧
      f.DDDD.length + f.Data.length = DDDD.length + data.length ∧
      (DDDD.length + data.length ≤ 255 →
        f.DataLen = DDDD.length + data.length ∧ f.DataLen = f.DDDD.length + f.Data.length) := by
  obtain ⟨h1, h2, h3⟩ := NewDLT645Frame_lengths address ctrl DDDD data f hf
  refine ⟨h1, by omega, fun hle => ?_⟩
  have hm : (DDDD.length + data.length) % 256 = DDDD.length + data.length :=
    Nat.mod_eq_of_lt (by omega)
  omega

/-- Witness of C14 (amended): the frame reading identifier 00 00 01 00 from meter
"202204080026". -/
theorem NewDLT645Frame_DataLen_witness :
    ∃ f, NewDLT645Frame (goString "202204080026") 0x11 [0x00, 0x01, 0x00, 0x00] [] = .ok f ∧
      f.DataLen = 4 :=
  ⟨_, NewDLT645Frame_eq _ _ _ _ [0x26, 0x00, 0x08, 0x04, 0x22, 0x20] (by decide),
    ((NewDLT645Frame_DataLen (goString "202204080026") 0x11 [0x00, 0x01, 0x00, 0x00] [] _
      (NewDLT645Frame_eq _ _ _ _ [0x26, 0x00, 0x08, 0x04, 0x22, 0x20] (by decide))).2.2
      (by decide)).1⟩

theorem index_inv (l : List Nat) (i v : Nat) (h : index l i = .ok v) : l[i]? = some v := by
  unfold index at h
  split at h
  · next w hw =>
    cases h
    exact hw
  · cases h

theorem dataLoop_panic (data : List Nat) (nd i : Nat) (out : List Nat) (hi1 : 0 < i)
    (hi : i ≤ out.length) (hd : data.length < 10 + nd + i) :
    dataLoop data nd i out = .panic := by
  cases i with
  | zero => omega
  | succ i =>
    rw [dataLoop, if_pos hi, index_of_ge _ _ (by omega), bind_panic]

/-- A decoding loop that returns has read its `i` bytes inside the buffer. -/
theorem dataLoop_inv (data : List Nat) (nd i : Nat) (out r : List Nat) (hi : i ≤ out.length)
    (h : dataLoop data nd i out = .ok r) :
    r = out.take (out.length - i)
        ++ (((data.drop (10 + nd)).take i).reverse.map fun b => (b + 256 - 0x33) % 256) ∧
      (i = 0 ∨ 10 + nd + i ≤ data.length) := by
  by_cases hd : 10 + nd + i ≤ data.length
  · rw [dataLoop_eq data nd i out hi hd] at h
    cases h
    exact ⟨rfl, Or.inr hd⟩
  · by_cases h0 : i = 0
    · subst h0
      rw [dataLoop] at h
      cases h
      simp
    · rw [dataLoop_panic data nd i out (by omega) hi (by omega)] at h
      cases h

/-- What an accepted buffer looks like: the checks `ParseDLT645Frame` passed and the two
decoding loops that produced the identifier and the payload. -/
theorem ParseDLT645Frame_inv (data : List Nat) (g : Frame)
    (h : ParseDLT645Frame data = .ok g) :
    12 ≤ data.length ∧ ∃ L cs dddd out, data[9]? = some L ∧ data[(10 + L) % 256]? = some cs ∧
      ddddLoop data (if L ≥ 4 then List.replicate 4 0 else []).length
        (if L ≥ 4 then List.replicate 4 0 else []) = .ok dddd ∧
      dataLoop data dddd.length (L - dddd.length)
        (if L ≥ 4 then List.replicate ((L - 4) % 256) 0 else []) = .ok out ∧
      g.DDDD = dddd ∧ g.Data = out ∧ data[8]? = some g.Ctrl ∧ g.DataLen = L ∧
      g.Address = (data.drop 1).take 6 ∧ g.CS = cs := by
  by_cases hlen : data.length < 12
  · simp [ParseDLT645Frame, hlen] at h
  have h0 : (0 : Nat) < data.length := by omega
  have h7 : 7 < data.length := by omega
  have h8 : 8 < data.length := by omega
  have h9 : 9 < data.length := by omega
  have hl : data.length - 1 < data.length := by omega
  refine ⟨by omega, data[9], ?_⟩
  unfold ParseDLT645Frame at h
  rw [if_neg hlen, index_of_lt _ _ h0, bind_ok, index_of_lt _ _ h7, bind_ok,
    index_of_lt _ _ hl, bind_ok] at h
  split at h
  · cases h
  rw [index_of_lt _ _ h8, bind_ok, index_of_lt _ _ h9, bind_ok] at h
  simp only [] at h
  cases hcs : index data ((10 + data[9]) % 256) with
  | error m =>
    rw [hcs, bind_error] at h
    cases h
  | panic =>
    rw [hcs, bind_panic] at h
    cases h
  | ok cs =>
    rw [hcs, bind_ok] at h
    split at h
    · cases h
    split at h
    · cases h
    cases hd : ddddLoop data (if data[9] ≥ 4 then List.replicate 4 0 else []).length
        (if data[9] ≥ 4 then List.replicate 4 0 else []) with
    | error m =>
      rw [hd, bind_error] at h
      cases h
    | panic =>
      rw [hd, bind_panic] at h
      cases h
    | ok dddd =>
      rw [hd, bind_ok] at h
      cases ho : dataLoop data dddd.length (data[9] - dddd.length)
          (if data[9] ≥ 4 then List.replicate ((data[9] - 4) % 256) 0 else []) with
      | error m =>
        rw [ho, bind_error] at h
        cases h
      | panic =>
        rw [ho, bind_panic] at h
        cases h
      | ok out =>
        rw [ho, bind_ok] at h
        cases h
        exact ⟨cs, dddd, out, List.getElem?_eq_getElem h9, index_inv _ _ _ hcs, rfl, ho, rfl,
          rfl, List.getElem?_eq_getElem h8, rfl, rfl, rfl⟩

theorem getD_take_drop (data : List Nat) (a n k : Nat) (hk : k < n) :
    ((data.drop a).take n).getD k 0 = data.getD (a + k) 0 := by
  rw [List.getD_eq_getElem?_getD, List.getD_eq_getElem?_getD, List.getElem?_take_of_lt hk,
    List.getElem?_drop]

/-- C15: for every buffer that `ParseDLT645Frame` accepts and whose data-length byte `L`
(offset 9) is at least 4, the returned frame has a 4-byte `DDDD` with `DDDD[j] =
(buffer[13-j] - 0x33) mod 256` for `j` in `0..3` and a `Data` of `L-4` bytes with `Data[j] =
(buffer[9+L-j] - 0x33) mod 256`; `Ctrl`, `DataLen` and `Address` are copied from offsets 8,
9 and 1..6. -/
theorem ParseDLT645Frame_decode (data : List Nat) (g : Frame) (L : Nat)
    (hbytes : ∀ b ∈ data, b < 256) (h : ParseDLT645Frame data = .ok g)
    (h9 : data[9]? = some L) (h4 : 4 ≤ L) :
    g.DDDD.length = 4 ∧
      (∀ j, j < 4 → g.DDDD[j]? = some ((data.getD (13 - j) 0 + 256 - 0x33) % 256)) ∧
      g.Data.length = L - 4 ∧
      (∀ j, j < L - 4 → g.Data[j]? = some ((data.getD (9 + L - j) 0 + 256 - 0x33) % 256)) ∧
      data[8]? = some g.Ctrl ∧ g.DataLen = L ∧ g.Address = (data.drop 1).take 6 := by
  obtain ⟨hlen, L2, cs, dddd, out, h9b, -, hd, ho, hD, hO, h8, hDL, hA, -⟩ :=
    ParseDLT645Frame_inv data g h
  rw [h9] at h9b
  cases h9b
  have hL : L < 256 := hbytes L (List.getElem?_mem h9)
  have hge : L ≥ 4 := h4
  have hmod : (L - 4) % 256 = L - 4 := Nat.mod_eq_of_lt (by omega)
  simp only [hge, if_true, List.length_replicate, hmod] at hd ho
  rw [ddddLoop_eq_dataLoop] at hd
  obtain ⟨hdd, hdlen⟩ := dataLoop_inv data 0 4 _ dddd (by simp) hd
  have h14 : 14 ≤ data.length := by omega
  have hX : ((data.drop (10 + 0)).take 4).length = 4 := by
    rw [List.length_take, List.length_drop]
    omega
  simp only [List.length_replicate, Nat.sub_self, List.take_zero, List.nil_append] at hdd
  have hdl : dddd.length = 4 := by
    rw [hdd, List.length_map, List.length_reverse, hX]
  rw [hdl] at ho
  obtain ⟨hoo, holen⟩ := dataLoop_inv data 4 (L - 4) _ out (by simp) ho
  simp only [List.length_replicate, Nat.sub_self, List.take_zero, List.nil_append] at hoo
  have hY : ((data.drop (10 + 4)).take (L - 4)).length = L - 4 := by
    rw [List.length_take, List.length_drop]
    omega
  refine ⟨by rw [hD, hdl], ?_, by rw [hO, hoo, List.length_map, List.length_reverse, hY], ?_,
    h8, hDL, hA⟩
  · intro j hj
    rw [hD, hdd, getElem?_map_reverse _ _ j (by rw [hX]; exact hj), hX,
      getD_take_drop _ _ _ _ (by omega)]
    have e : 10 + 0 + (4 - 1 - j) = 13 - j := by omega
    rw [e]
  · intro j hj
    rw [hO, hoo, getElem?_map_reverse _ _ j (by rw [hY]; exact hj), hY,
      getD_take_drop _ _ _ _ (by omega)]
    have e : 10 + 4 + (L - 4 - 1 - j) = 9 + L - j := by omega
    rw [e]

/-- Witness of C15: a reply of 18 bytes carrying identifier 00 01 00 00 and two payload
bytes. -/
theorem ParseDLT645Frame_decode_witness :
    ParseDLT645Frame [0x68, 0x26, 0x00, 0x08, 0x04, 0x22, 0x20, 0x68, 0x91, 6, 0x33, 0x33,
        0x34, 0x33, 0x45, 0x56, 0x43, 0x16] =
      .ok { Start := 0x68, Address := [0x26, 0x00, 0x08, 0x04, 0x22, 0x20], Start2 := 0x68,
            Ctrl := 0x91, DataLen := 6, DDDD := [0x00, 0x01, 0x00, 0x00],
            Data := [0x23, 0x12], CS := 0x43, End := 0x16 } ∧
    ∀ j, j < 6 - 4 →
      [0x23, 0x12][j]? = some (([0x68, 0x26, 0x00, 0x08, 0x04, 0x22, 0x20, 0x68, 0x91, 6, 0x33,
        0x33, 0x34, 0x33, 0x45, 0x56, 0x43, 0x16].getD (9 + 6 - j) 0 + 256 - 0x33) % 256) :=
  ⟨by decide,
    (ParseDLT645Frame_decode
      [0x68, 0x26, 0x00, 0x08, 0x04, 0x22, 0x20, 0x68, 0x91, 6, 0x33, 0x33, 0x34, 0x33, 0x45,
        0x56, 0x43, 0x16]
      { Start := 0x68, Address := [0x26, 0x00, 0x08, 0x04, 0x22, 0x20], Start2 := 0x68,
        Ctrl := 0x91, DataLen := 6, DDDD := [0x00, 0x01, 0x00, 0x00],
        Data := [0x23, 0x12], CS := 0x43, End := 0x16 }
      6 (by decide) (by decide) (by decide) (by decide)).2.2.2.1⟩

theorem dataLoop_nil (data : List Nat) (nd i : Nat) : dataLoop data nd i [] = .ok [] := by
  cases i with
  | zero => rfl
  | succ n => rw [dataLoop, if_neg (by simp)]

/-- An accepted buffer whose data-length byte is below 4 yields an empty identifier and an
empty payload. -/
theorem ParseDLT645Frame_small_block (data : List Nat) (g : Frame) (L : Nat)
    (h : ParseDLT645Frame data = .ok g) (h9 : data[9]? = some L) (h4 : L < 4) :
    g.DDDD = [] ∧ g.Data = [] := by
  obtain ⟨hlen, L2, cs, dddd, out, h9b, -, hd, ho, hD, hO, -⟩ :=
    ParseDLT645Frame_inv data g h
  rw [h9] at h9b
  cases h9b
  have hge : ¬ L ≥ 4 := by omega
  simp only [hge, if_false, List.length_nil] at hd ho
  rw [ddddLoop] at hd
  cases hd
  rw [dataLoop_nil] at ho
  cases ho
  exact ⟨hD, hO⟩

/-- C19 fails on the code at this 12-byte buffer with valid markers and data-length byte 2:
`ParseDLT645Frame` reads the checksum at offset `10 + 2 = 12`, one past the end of the
buffer, and panics with an index out of range. -/
theorem small_block_index_panics :
    12 ≤ [0x68, 0, 0, 0, 0, 0, 0, 0x68, 0x11, 2, 0x00, 0x16].length ∧
    [0x68, 0, 0, 0, 0, 0, 0, 0x68, 0x11, 2, 0x00, 0x16][0]? = some 0x68 ∧
    [0x68, 0, 0, 0, 0, 0, 0, 0x68, 0x11, 2, 0x00, 0x16][7]? = some 0x68 ∧
    [0x68, 0, 0, 0, 0, 0, 0, 0x68, 0x11, 2, 0x00, 0x16][11]? = some 0x16 ∧
    [0x68, 0, 0, 0, 0, 0, 0, 0x68, 0x11, 2, 0x00, 0x16][9]? = some 2 ∧
    ParseDLT645Frame [0x68, 0, 0, 0, 0, 0, 0, 0x68, 0x11, 2, 0x00, 0x16] = .panic := by
  decide

/-- The two returning cases of `Client.Read`: an error of `NewDLT645Frame` is returned with
the client untouched; a built frame is serialized and handed to the `Send` of the back end
the client holds, whose error is returned unchanged and whose response goes to
`ParseDLT645Frame`, the client afterwards holding the back end as `Send` left it. -/
theorem Client_Read_spec (c : Client) (sw : SerialWire) (tw : TCPWire) (now : Int) (ctrl : Nat)
    (DDDD data : List Nat) :
    (∀ msg, NewDLT645Frame c.DeviceAddress ctrl DDDD data = .error msg →
      c.Read sw tw now ctrl DDDD data = (.error msg, c)) ∧
    (∀ f s, NewDLT645Frame c.DeviceAddress ctrl DDDD data = .ok f → c.serialC = some s →
      (c.Read sw tw now ctrl DDDD data).2 = { c with serialC := some (s.Send sw now f.ToData).2 } ∧
      (∀ msg, (s.Send sw now f.ToData).1 = .error msg →
        (c.Read sw tw now ctrl DDDD data).1 = .error msg) ∧
      (∀ resp, (s.Send sw now f.ToData).1 = .ok resp →
        (c.Read sw tw now ctrl DDDD data).1 = ParseDLT645Frame resp)) ∧
    (∀ f t, NewDLT645Frame c.DeviceAddress ctrl DDDD data = .ok f → c.serialC = none →
      c.tcpC = some t →
      (c.Read sw tw now ctrl DDDD data).2 = { c with tcpC := some (t.Send tw now f.ToData).2 } ∧
      (∀ msg, (t.Send tw now f.ToData).1 = .error msg →
        (c.Read sw tw now ctrl DDDD data).1 = .error msg) ∧
      (∀ resp, (t.Send tw now f.ToData).1 = .ok resp →
        (c.Read sw tw now ctrl DDDD data).1 = ParseDLT645Frame resp)) := by
  refine ⟨?_, ?_, ?_⟩
  · intro msg h
    simp only [Client.Read, h]
  · intro f s hf hs
    simp only [Client.Read, hf, hs]
    refine ⟨trivial, ?_, ?_⟩
    · intro msg h
      rw [h]
      rfl
    · intro resp h
      rw [h]
      rfl
  · intro f t hf hs ht
    simp only [Client.Read, hf, hs, ht]
    refine ⟨trivial, ?_, ?_⟩
    · intro msg h
      rw [h]
      rfl
    · intro resp h
      rw [h]
      rfl

/-- A panic of `NewDLT645Frame` (an address shorter than 12 bytes) passes through
`Client.Read` before any `Send`. -/
theorem Client_Read_panic (c : Client) (sw : SerialWire) (tw : TCPWire) (now : Int) (ctrl : Nat)
    (DDDD data : List Nat) (h : NewDLT645Frame c.DeviceAddress ctrl DDDD data = .panic) :
    c.Read sw tw now ctrl DDDD data = (.panic, c) := by
  simp only [Client.Read, h]

/-- C16 fails on the code at the device address "1234": for a client holding a connected
TCP back end, `Client.Read` neither returns the error of `NewDLT645Frame` nor invokes
`Send`; `AddressToBCD` panics on the short address, and the panic passes through
`NewDLT645Frame` and `Read`, whatever the transport does, leaving the client untouched. -/
theorem Client_Read_short_address :
    NewDLT645Frame (goString "1234") 0x11 [0x00, 0x01, 0x00, 0x00] [] = .panic ∧
    ∀ (sw : SerialWire) (tw : TCPWire) (now : Int),
      Client.Read
          { serialC := none,
            tcpC := some { Address := [], Timeout := 0, IdleTimeout := 0, Logger := none,
                           conn := some 1, closeTimer := none, lastActivity := 0 },
            DeviceAddress := goString "1234", config := none }
          sw tw now 0x11 [0x00, 0x01, 0x00, 0x00] [] =
        (.panic,
          { serialC := none,
            tcpC := some { Address := [], Timeout := 0, IdleTimeout := 0, Logger := none,
                           conn := some 1, closeTimer := none, lastActivity := 0 },
            DeviceAddress := goString "1234", config := none }) := by
  refine ⟨by decide, fun sw tw now => ?_⟩
  exact Client_Read_panic _ sw tw now _ _ _ (by decide)

theorem tcpClient_close_conn (t : tcpClient) (w : TCPWire) :
    (t.close w).2.conn = none ∧ (t.close w).2.closeTimer = none := by
  unfold tcpClient.close
  cases hc : t.conn <;> cases ht : t.closeTimer <;> simp [hc, ht]

theorem tcpClient_close_closed (t : tcpClient) (w : TCPWire) (hc : t.conn = none)
    (ht : t.closeTimer = none) : t.close w = (none, t) := by
  unfold tcpClient.close
  simp [hc, ht]

theorem serialClient_close_conn (s : serialClient) (w : SerialWire) :
    (s.close w).2.conn = none ∧ (s.close w).2.closeTimer = none := by
  unfold serialClient.close
  cases hc : s.conn <;> cases ht : s.closeTimer <;> simp [hc, ht]

theorem serialClient_close_closed (s : serialClient) (w : SerialWire) (hc : s.conn = none)
    (ht : s.closeTimer = none) : s.close w = (none, s) := by
  unfold serialClient.close
  simp [hc, ht]

/-- Closing a client twice leaves it as the first close did. -/
theorem Client_Close_twice (c : Client) (sw sw2 : SerialWire) (tw tw2 : TCPWire) :
    (c.Close sw tw).Close sw2 tw2 = c.Close sw tw := by
  unfold Client.Close tcpClient.Close serialClient.Close
  cases hs : c.serialC with
  | none =>
    cases ht : c.tcpC with
    | none => simp [hs, ht]
    | some t =>
      have h := tcpClient_close_closed (t.close tw).2 tw2 (tcpClient_close_conn t tw).1
        (tcpClient_close_conn t tw).2
      simp [hs, ht, h]
  | some s =>
    have h1 := serialClient_close_closed (s.close sw).2 sw2 (serialClient_close_conn s sw).1
      (serialClient_close_conn s sw).2
    cases ht : c.tcpC with
    | none => simp [hs, ht, h1]
    | some t =>
      have h := tcpClient_close_closed (t.close tw).2 tw2 (tcpClient_close_conn t tw).1
        (tcpClient_close_conn t tw).2
      simp [hs, ht, h, h1]

/-- The state and the error `tcpClient.close` returns: the back end with `conn` and
`closeTimer` nil and nothing else changed, and the error of closing the connection when
there was one. -/
theorem tcpClient_close_eq (t : tcpClient) (w : TCPWire) :
    (t.close w).2 = { t with conn := none, closeTimer := none } ∧
      (t.close w).1 = (if t.conn = none then none else w.close) := by
  unfold tcpClient.close
  cases t with
  | mk a b c d conn timer last =>
    cases conn <;> cases timer <;> simp

/-- The state and the error `serialClient.close` returns. -/
theorem serialClient_close_eq (s : serialClient) (w : SerialWire) :
    (s.close w).2 = { s with conn := none, closeTimer := none } ∧
      (s.close w).1 = (if s.conn = none then none else w.close) := by
  unfold serialClient.close
  cases s with
  | mk a b c d e f g h i conn timer last =>
    cases conn <;> cases timer <;> simp

/-- What `Client.Close` does: it closes each back end the client holds and changes nothing
else. -/
theorem Client_Close_eq (c : Client) (sw : SerialWire) (tw : TCPWire) :
    c.Close sw tw =
      { c with serialC := c.serialC.map fun s => (s.Close sw).2,
               tcpC := c.tcpC.map fun t => (t.Close tw).2 } := by
  unfold Client.Close
  cases c with
  | mk serialC tcpC addr cfg =>
    cases serialC <;> cases tcpC <;> simp

/-- C17: on either back end `close`, and the exported `Close`, leave the connection
disconnected with no idle timer armed whatever the state before (and change nothing else;
the error returned is that of closing the connection when there was one), a second call
changes nothing and returns no error; `Client.Close` closes every back end the client
holds, so each is disconnected with no idle timer afterwards, and called any number of
times (at least once) it leaves the client as one call does. -/
theorem close_idempotent :
    (∀ (t : tcpClient) (w w2 : TCPWire),
      (t.close w).2.conn = none ∧ (t.close w).2.closeTimer = none ∧
      (t.close w).2.close w2 = (none, (t.close w).2)) ∧
    (∀ (s : serialClient) (w w2 : SerialWire),
      (s.close w).2.conn = none ∧ (s.close w).2.closeTimer = none ∧
      (s.close w).2.close w2 = (none, (s.close w).2)) ∧
    (∀ (c : Client) (sw : SerialWire) (tw : TCPWire) (n : Nat),
      (fun x : Client => x.Close sw tw)^[n + 1] c = c.Close sw tw) ∧
    (∀ (t : tcpClient) (w w2 : TCPWire),
      (t.Close w).2 = { t with conn := none, closeTimer := none } ∧
      (t.Close w).1 = (if t.conn = none then none else w.close) ∧
      (t.Close w).2.conn = none ∧ (t.Close w).2.closeTimer = none ∧
      (t.Close w).2.Close w2 = (none, (t.Close w).2)) ∧
    (∀ (s : serialClient) (w w2 : SerialWire),
      (s.Close w).2 = { s with conn := none, closeTimer := none } ∧
      (s.Close w).1 = (if s.conn = none then none else w.close) ∧
      (s.Close w).2.conn = none ∧ (s.Close w).2.closeTimer = none ∧
      (s.Close w).2.Close w2 = (none, (s.Close w).2)) ∧
    (∀ (c : Client) (sw sw2 : SerialWire) (tw tw2 : TCPWire),
      (c.Close sw tw).serialC
        = c.serialC.map (fun s => { s with conn := none, closeTimer := none }) ∧
      (c.Close sw tw).tcpC
        = c.tcpC.map (fun t => { t with conn := none, closeTimer := none }) ∧
      (c.Close sw tw).DeviceAddress = c.DeviceAddress ∧
      (c.Close sw tw).config = c.config ∧
      (∀ s, (c.Close sw tw).serialC = some s → s.conn = none ∧ s.closeTimer = none) ∧
      (∀ t, (c.Close sw tw).tcpC = some t → t.conn = none ∧ t.closeTimer = none) ∧
      (c.Close sw tw).Close sw2 tw2 = c.Close sw tw) := by
  refine ⟨?_, ?_, ?_, ?_, ?_, ?_⟩
  · intro t w w2
    obtain ⟨h1, h2⟩ := tcpClient_close_conn t w
    exact ⟨h1, h2, tcpClient_close_closed _ w2 h1 h2⟩
  · intro s w w2
    obtain ⟨h1, h2⟩ := serialClient_close_conn s w
    exact ⟨h1, h2, serialClient_close_closed _ w2 h1 h2⟩
  · intro c sw tw n
    induction n with
    | zero => rfl
    | succ n ih =>
      rw [Function.iterate_succ_apply', ih]
      exact Client_Close_twice c sw sw tw tw
  · intro t w w2
    obtain ⟨h1, h2⟩ := tcpClient_close_conn t w
    exact ⟨(tcpClient_close_eq t w).1, (tcpClient_close_eq t w).2, h1, h2,
      tcpClient_close_closed _ w2 h1 h2⟩
  · intro s w w2
    obtain ⟨h1, h2⟩ := serialClient_close_conn s w
    exact ⟨(serialClient_close_eq s w).1, (serialClient_close_eq s w).2, h1, h2,
      serialClient_close_closed _ w2 h1 h2⟩
  · intro c sw sw2 tw tw2
    have hs : (c.Close sw tw).serialC
        = c.serialC.map (fun s => { s with conn := none, closeTimer := none }) := by
      rw [Client_Close_eq]
      cases c.serialC with
      | none => rfl
      | some s => simp [serialClient.Close, (serialClient_close_eq s sw).1]
    have ht : (c.Close sw tw).tcpC
        = c.tcpC.map (fun t => { t with conn := none, closeTimer := none }) := by
      rw [Client_Close_eq]
      cases c.tcpC with
      | none => rfl
      | some t => simp [tcpClient.Close, (tcpClient_close_eq t tw).1]
    refine ⟨hs, ht, by rw [Client_Close_eq], by rw [Client_Close_eq], ?_, ?_,
      Client_Close_twice c sw sw2 tw tw2⟩
    · intro s h
      rw [hs] at h
      cases hc : c.serialC with
      | none => rw [hc] at h; cases h
      | some s0 =>
        rw [hc] at h
        cases h
        exact ⟨rfl, rfl⟩
    · intro t h
      rw [ht] at h
      cases hc : c.tcpC with
      | none => rw [hc] at h; cases h
      | some t0 =>
        rw [hc] at h
        cases h
        exact ⟨rfl, rfl⟩

/-- Evaluation of `Client.Close`: closing a client that holds a connected TCP back end with an armed
idle timer leaves a client whose back end is disconnected with no timer. -/
theorem Client_Close_example :
    Client.Close
        { serialC := none,
          tcpC := some { Address := [], Timeout := 0, IdleTimeout := 1000, Logger := none,
                         conn := some 1, closeTimer := some 1000, lastActivity := 0 },
          DeviceAddress := goString "202204080026", config := none }
        { openPort := fun _ => .ok 1, write := fun _ => none, read := .ok [], close := none }
        { dial := fun _ _ => .ok 1, setDeadline := fun _ => none, write := fun _ => none,
          read := .ok [], close := none } =
      { serialC := none,
        tcpC := some { Address := [], Timeout := 0, IdleTimeout := 1000, Logger := none,
                       conn := none, closeTimer := none, lastActivity := 0 },
        DeviceAddress := goString "202204080026", config := none } := by
  decide

theorem timeSub_lt (now last d : Int) (h : now - last < d) (hd : 0 < d) :
    timeSub now last < d := by
  unfold timeSub maxDuration minDuration
  split_ifs <;> omega

theorem timeSub_ge (now last d : Int) (h : d < now - last) (hd : d ≤ maxDuration) :
    timeSub now last ≥ d := by
  unfold timeSub
  unfold maxDuration minDuration at *
  split_ifs <;> omega

theorem tcpClient_Send_timer (t : tcpClient) (w : TCPWire) (now : Int) (data : List Nat)
    (h : t.IdleTimeout ≤ 0) : (t.Send w now data).2.closeTimer = t.closeTimer := by
  unfold tcpClient.Send tcpClient.connect tcpClient.startCloseTimer
  cases hc : t.conn with
  | some c =>
    simp only [hc, h, if_true]
    cases w.setDeadline (if t.Timeout > 0 then some (now + t.Timeout) else none) <;>
      cases w.write data <;> cases w.read <;> rfl
  | none =>
    simp only [hc]
    cases w.dial t.Timeout t.Address with
    | error e => rfl
    | ok conn =>
      simp only [h, if_true]
      cases w.setDeadline (if t.Timeout > 0 then some (now + t.Timeout) else none) <;>
        cases w.write data <;> cases w.read <;> rfl

theorem serialClient_Send_timer (s : serialClient) (w : SerialWire) (now : Int)
    (data : List Nat) (h : s.IdleTimeout ≤ 0) :
    (s.Send w now data).2.closeTimer = s.closeTimer := by
  unfold serialClient.Send serialClient.connect serialClient.startCloseTimer
  cases hc : s.conn with
  | some c =>
    simp only [hc, h, if_true]
    cases w.write data <;> cases w.read <;> rfl
  | none =>
    simp only [hc]
    cases hr : s.RS485 with
    | none => rfl
    | some rs485 =>
      simp only [hr]
      cases w.openPort { Address := s.Address, BaudRate := s.BaudRate, DataBits := s.DataBits,
                         StopBits := s.StopBits, Parity := s.Parity, Timeout := s.Timeout,
                         RS485 := rs485 } with
      | error e => rfl
      | ok port =>
        simp only [h, if_true]
        cases w.write data <;> cases w.read <;> rfl

theorem tcpClient_closeIdle_keep (t : tcpClient) (w : TCPWire) (now : Int)
    (h : t.IdleTimeout ≤ 0 ∨ now - t.lastActivity < t.IdleTimeout) :
    t.closeIdle w now = t := by
  unfold tcpClient.closeIdle
  by_cases h0 : t.IdleTimeout ≤ 0
  · rw [if_pos h0]
  · rw [if_neg h0]
    have hlt : now - t.lastActivity < t.IdleTimeout := by
      rcases h with h | h
      · exact absurd h h0
      · exact h
    have := timeSub_lt now t.lastActivity t.IdleTimeout hlt (by omega)
    simp only []
    rw [if_neg (by omega)]

theorem serialClient_closeIdle_keep (s : serialClient) (w : SerialWire) (now : Int)
    (h : s.IdleTimeout ≤ 0 ∨ now - s.lastActivity < s.IdleTimeout) :
    s.closeIdle w now = s := by
  unfold serialClient.closeIdle
  by_cases h0 : s.IdleTimeout ≤ 0
  · rw [if_pos h0]
  · rw [if_neg h0]
    have hlt : now - s.lastActivity < s.IdleTimeout := by
      rcases h with h | h
      · exact absurd h h0
      · exact h
    have := timeSub_lt now s.lastActivity s.IdleTimeout hlt (by omega)
    simp only []
    rw [if_neg (by omega)]

theorem tcpClient_closeIdle_close (t : tcpClient) (w : TCPWire) (now : Int)
    (h0 : 0 < t.IdleTimeout) (hmax : t.IdleTimeout ≤ maxDuration)
    (h : t.IdleTimeout < now - t.lastActivity) : t.closeIdle w now = (t.close w).2 := by
  unfold tcpClient.closeIdle
  have := timeSub_ge now t.lastActivity t.IdleTimeout h hmax
  rw [if_neg (by omega)]
  simp only []
  rw [if_pos this]

theorem serialClient_closeIdle_close (s : serialClient) (w : SerialWire) (now : Int)
    (h0 : 0 < s.IdleTimeout) (hmax : s.IdleTimeout ≤ maxDuration)
    (h : s.IdleTimeout < now - s.lastActivity) : s.closeIdle w now = (s.close w).2 := by
  unfold serialClient.closeIdle
  have := timeSub_ge now s.lastActivity s.IdleTimeout h hmax
  rw [if_neg (by omega)]
  simp only []
  rw [if_pos this]

/-- C20: on either back end the idle-timer callback `closeIdle` leaves the state unchanged
when `IdleTimeout` is zero or negative or when the time elapsed since `lastActivity` is less
than `IdleTimeout`, and closes the connection (disconnected, no timer) when `IdleTimeout` is
positive and the elapsed time exceeds it; and when `IdleTimeout` is zero or negative, `Send`
never arms an idle timer (it leaves `closeTimer` as it was). -/
theorem closeIdle_spec :
    (∀ (t : tcpClient) (w : TCPWire) (now : Int),
      (t.IdleTimeout ≤ 0 → t.closeIdle w now = t) ∧
      (now - t.lastActivity < t.IdleTimeout → t.closeIdle w now = t) ∧
      (0 < t.IdleTimeout → t.IdleTimeout ≤ maxDuration →
        t.IdleTimeout < now - t.lastActivity →
        (t.closeIdle w now).conn = none ∧ (t.closeIdle w now).closeTimer = none) ∧
      (t.IdleTimeout ≤ 0 →
        ∀ data, (t.Send w now data).2.closeTimer = t.closeTimer)) ∧
    (∀ (s : serialClient) (w : SerialWire) (now : Int),
      (s.IdleTimeout ≤ 0 → s.closeIdle w now = s) ∧
      (now - s.lastActivity < s.IdleTimeout → s.closeIdle w now = s) ∧
      (0 < s.IdleTimeout → s.IdleTimeout ≤ maxDuration →
        s.IdleTimeout < now - s.lastActivity →
        (s.closeIdle w now).conn = none ∧ (s.closeIdle w now).closeTimer = none) ∧
      (s.IdleTimeout ≤ 0 →
        ∀ data, (s.Send w now data).2.closeTimer = s.closeTimer)) := by
  constructor
  · intro t w now
    refine ⟨fun h => tcpClient_closeIdle_keep t w now (Or.inl h),
      fun h => tcpClient_closeIdle_keep t w now (Or.inr h), fun h0 hmax h => ?_,
      fun h data => tcpClient_Send_timer t w now data h⟩
    rw [tcpClient_closeIdle_close t w now h0 hmax h]
    exact tcpClient_close_conn t w
  · intro s w now
    refine ⟨fun h => serialClient_closeIdle_keep s w now (Or.inl h),
      fun h => serialClient_closeIdle_keep s w now (Or.inr h), fun h0 hmax h => ?_,
      fun h data => serialClient_Send_timer s w now data h⟩
    rw [serialClient_closeIdle_close s w now h0 hmax h]
    exact serialClient_close_conn s w

/-- Witness of C20: a connected TCP back end with a 1000 ns idle timeout, last active at
instant 0, is closed by the callback running at instant 5000. -/
theorem closeIdle_spec_witness :
    (tcpClient.closeIdle
        { Address := [], Timeout := 0, IdleTimeout := 1000, Logger := none, conn := some 1,
          closeTimer := some 1000, lastActivity := 0 }
        { dial := fun _ _ => .ok 1, setDeadline := fun _ => none, write := fun _ => none,
          read := .ok [], close := none } 5000).conn = none ∧
    (tcpClient.closeIdle
        { Address := [], Timeout := 0, IdleTimeout := 1000, Logger := none, conn := some 1,
          closeTimer := some 1000, lastActivity := 0 }
        { dial := fun _ _ => .ok 1, setDeadline := fun _ => none, write := fun _ => none,
          read := .ok [], close := none } 5000).closeTimer = none :=
  (closeIdle_spec.1
      { Address := [], Timeout := 0, IdleTimeout := 1000, Logger := none, conn := some 1,
        closeTimer := some 1000, lastActivity := 0 }
      { dial := fun _ _ => .ok 1, setDeadline := fun _ => none, write := fun _ => none,
        read := .ok [], close := none } 5000).2.2.1 (by decide) (by decide) (by decide)

/-- The back end `newSerial` builds never has a connection, an idle timeout or RS-485
options when it calls `Connect`, whatever the configuration holds. -/
theorem newSerialConfigured_unset (address : List Nat) (cf : Config) :
    (newSerialConfigured address cf).conn = none ∧
      (newSerialConfigured address cf).RS485 = none ∧
      (newSerialConfigured address cf).IdleTimeout = 0 := by
  unfold newSerialConfigured
  refine ⟨?_, ?_, ?_⟩
  · simp only [apply_ite serialClient.conn, newSerialClient, ite_self]
  · simp only [apply_ite serialClient.RS485, newSerialClient, ite_self]
  · simp only [apply_ite serialClient.IdleTimeout, newSerialClient, ite_self, gt_iff_lt,
      lt_self_iff_false, if_false]

/-- The fields `newSerial` does copy from the configuration when they are set. -/
theorem newSerialConfigured_fields (address : List Nat) (cf : Config) :
    (cf.Timeout > 0 → (newSerialConfigured address cf).Timeout = cf.Timeout) ∧
    (cf.BaudRate > 0 → (newSerialConfigured address cf).BaudRate = cf.BaudRate) ∧
    (cf.DataBits > 0 → (newSerialConfigured address cf).DataBits = cf.DataBits) ∧
    (cf.StopBits > 0 → (newSerialConfigured address cf).StopBits = cf.StopBits) ∧
    (cf.Parity.length > 0 → (newSerialConfigured address cf).Parity = cf.Parity) := by
  unfold newSerialConfigured
  refine ⟨?_, ?_, ?_, ?_, ?_⟩ <;> intro h
  · simp only [apply_ite serialClient.Timeout, newSerialClient, ite_self, gt_iff_lt,
      lt_self_iff_false, if_false, h, if_true]
  · simp only [apply_ite serialClient.BaudRate, newSerialClient, ite_self, gt_iff_lt,
      lt_self_iff_false, if_false, h, if_true]
  · simp only [apply_ite serialClient.DataBits, newSerialClient, ite_self, gt_iff_lt,
      lt_self_iff_false, if_false, h, if_true]
  · simp only [apply_ite serialClient.StopBits, newSerialClient, ite_self, gt_iff_lt,
      lt_self_iff_false, if_false, h, if_true]
  · simp only [apply_ite serialClient.Parity, newSerialClient, ite_self, gt_iff_lt,
      lt_self_iff_false, if_false, h, if_true]

/-- The sibling constructor `newTCP` tests the configuration's `IdleTimeout` and copies
it. -/
theorem newTCPConfigured_IdleTimeout (address : List Nat) (cf : Config)
    (h : cf.IdleTimeout > 0) : (newTCPConfigured address cf).IdleTimeout = cf.IdleTimeout := by
  unfold newTCPConfigured
  simp only [apply_ite tcpClient.IdleTimeout, newTCPClient, ite_self, h, if_true]

/-- Opening the port from `newSerial` always dereferences the nil `RS485` of the back end:
`newSerial` panics for every configuration and every behaviour of the port. -/
theorem newSerial_panics (address deviceAddress : List Nat) (cf : Config) (w : SerialWire) :
    newSerial address deviceAddress cf w = .panic := by
  obtain ⟨hc, hr, -⟩ := newSerialConfigured_unset address cf
  simp only [newSerial, serialClient.Connect, serialClient.connect, hc, hr]

/-- C21 fails on the code: merging `callerConfig` into the default configuration gives a
configuration with a 10 s idle timeout, baud rate 9600 and RS-485 options; the back end
`newSerial` builds from it carries the baud rate but has idle timeout 0 and no RS-485
options, and opening the port dereferences that missing RS-485 configuration, so `newSerial`
and `NewClient` panic, with `callerConfig` and with no caller configuration at all. -/
theorem newSerial_drops_RS485 :
    ∃ cf, mergeConfig defaultConfig [some callerConfig] = .ok cf ∧
      cf.IdleTimeout = Second * 10 ∧ cf.BaudRate = 9600 ∧ cf.RS485 = callerConfig.RS485 ∧
      cf.RS485 ≠ none ∧
      (newSerialConfigured (goString "/dev/ttyUSB0") cf).BaudRate = 9600 ∧
      (newSerialConfigured (goString "/dev/ttyUSB0") cf).IdleTimeout = 0 ∧
      (newSerialConfigured (goString "/dev/ttyUSB0") cf).RS485 = none ∧
      (∀ w, newSerial (goString "/dev/ttyUSB0") (goString "202204080026") cf w = .panic) ∧
      (∀ sw tw, NewClient (goString "/dev/ttyUSB0") Serial (goString "202204080026")
        [some callerConfig] sw tw = .panic) ∧
      (∀ sw tw, NewClient (goString "/dev/ttyUSB0") Serial (goString "202204080026")
        [] sw tw = .panic) := by
  refine ⟨mergeOne defaultConfig callerConfig, rfl, by decide, by decide, by decide, by decide,
    by decide, by decide, by decide, fun w => newSerial_panics _ _ _ w, fun sw tw => ?_,
    fun sw tw => ?_⟩
  · simp only [NewClient, mergeConfig, if_true]
    exact newSerial_panics _ _ _ sw
  · simp only [NewClient, mergeConfig, if_true]
    exact newSerial_panics _ _ _ sw

/-- C22: `ParseDLT645Frame` reads the received checksum at the byte-typed index
`(10 + DataLen) mod 256`; for every 12-digit address, control byte other than 0xD1 and
0xD2, 4-byte identifier and payload of at most 241 bytes (`DataLen <= 245`), that index is
the second-to-last position of `NewDLT645Frame(...).ToData()`, parsing that buffer
succeeds, the parsed `CS` equals that byte, and the parsed identifier and payload equal the
originals. -/
theorem checksum_index_roundtrip :
    (∀ (data : List Nat) (g : Frame), ParseDLT645Frame data = .ok g →
      ∃ L, data[9]? = some L ∧ data[(10 + L) % 256]? = some g.CS) ∧
    (∀ (address : List Nat) (ctrl : Nat) (DDDD data : List Nat),
      address.length = 12 → (∀ c ∈ address, isDigit c) → ctrl ≠ 0xD1 → ctrl ≠ 0xD2 →
      DDDD.length = 4 → (∀ b ∈ DDDD, b < 256) → data.length ≤ 241 → (∀ b ∈ data, b < 256) →
      ∃ f g, NewDLT645Frame address ctrl DDDD data = .ok f ∧ f.DataLen ≤ 245 ∧
        (10 + f.DataLen) % 256 = f.ToData.length - 2 ∧
        ParseDLT645Frame f.ToData = .ok g ∧
        f.ToData[(10 + f.DataLen) % 256]? = some g.CS ∧ g.DDDD = DDDD ∧ g.Data = data) := by
  constructor
  · intro data g h
    obtain ⟨-, L, cs, dddd, out, h9, hcs, -, -, -, -, -, -, -, hCS⟩ :=
      ParseDLT645Frame_inv data g h
    exact ⟨L, h9, by rw [hCS]; exact hcs⟩
  · intro address ctrl DDDD data hlen hdig hc1 hc2 hid hidb hpl hplb
    obtain ⟨f, g, hf, hp, -, -, hD, hDa, hcs⟩ :=
      roundtrip_short_payload address ctrl DDDD data hlen hdig hc1 hc2 hid hidb hpl hplb
    obtain ⟨hDL, -, -⟩ := NewDLT645Frame_lengths address ctrl DDDD data f hf
    obtain ⟨H, hH, hHlen, -⟩ :=
      ToData_built address ctrl DDDD data f hlen hdig (by omega) hf
    have hlenT : f.ToData.length = 16 + data.length := by
      rw [hH, List.length_append, hHlen, hid]
      simp only [List.length_cons, List.length_nil]
      omega
    have hDL2 : f.DataLen = 4 + data.length := by
      rw [hDL, hid]
      exact Nat.mod_eq_of_lt (by omega)
    have hidx : (10 + f.DataLen) % 256 = f.ToData.length - 2 := by
      rw [hDL2, hlenT, Nat.mod_eq_of_lt (by omega)]
      omega
    exact ⟨f, g, hf, by omega, hidx, hp, by rw [hidx]; exact hcs, hD, hDa⟩

/-- Witness of C22: the frame reading identifier 00 00 01 00 with payload 12 34 from meter
"202204080026". -/
theorem checksum_index_roundtrip_witness :
    ∃ f g, NewDLT645Frame (goString "202204080026") 0x11 [0x00, 0x01, 0x00, 0x00] [0x12, 0x34]
        = .ok f ∧ f.DataLen ≤ 245 ∧
      (10 + f.DataLen) % 256 = f.ToData.length - 2 ∧
      ParseDLT645Frame f.ToData = .ok g ∧
      f.ToData[(10 + f.DataLen) % 256]? = some g.CS ∧ g.DDDD = [0x00, 0x01, 0x00, 0x00] ∧
      g.Data = [0x12, 0x34] :=
  checksum_index_roundtrip.2 (goString "202204080026") 0x11 [0x00, 0x01, 0x00, 0x00]
    [0x12, 0x34] (by decide) (by decide) (by decide) (by decide) (by decide) (by decide)
    (by decide) (by decide)

end DLT645
